import Mathlib

/-!
CS-330 desk scene: texture registry, material list, model transform, camera and view.

A shallow embedding of `SceneManager.cpp` and `ViewManager.cpp`.  Each C++ member
function becomes a Lean function on an explicit `SceneManager` or `ViewManager` state.  The `while` loops are unrolled with a
fuel counter that is initialised to the loop bound, array accesses outside
`m_textureIDs` (undefined behaviour in C++) are reported as `Fault.outOfBounds`, and
calls into the external collaborators (image decoder, OpenGL, shader manager, glm) are
represented by their results, passed in as arguments, or by the call that is emitted.
Integers of type `int` are unbounded integers; the conversion of the 32-bit unsigned
texture handle to `int` is explicit (`toInt`).  Scalars of type `float` and `double` are
elements of a field, so that arithmetic is exact; where `ViewManager.cpp` stores a
`double` in a `float`, the conversion is explicit (`toFloat`, for the rational numbers
the IEEE 754 rounding `binary32`), and so is the rounding of the `double` subtractions
of the mouse callback (`toDouble`, for the rational numbers `binary64`).
-/

namespace CS330

/-! ## Machine integers -/

/-- Value of a 32-bit unsigned integer (`GLuint`) after conversion to `int`. -/
def toInt (u : Nat) : Int :=
  if u % 4294967296 < 2147483648 then ((u % 4294967296 : Nat) : Int)
  else ((u % 4294967296 : Nat) : Int) - 4294967296

/-- Value of an `int` after conversion to a 32-bit unsigned integer (`GLuint`). -/
def toGLuint (i : Int) : Nat :=
  (i % 4294967296).toNat

/-! ## Data model -/

/-- Ways in which a run of the embedded code can leave the defined behaviour of C++. -/
inductive Fault where
  /-- An access to `m_textureIDs` outside the bounds of the array. -/
  | outOfBounds
  /-- The loop counter of the embedding ran out before the loop condition failed. -/
  | fuelExhausted
  /-- A call through `m_pShaderManager` while the pointer is NULL. -/
  | nullPointer
  deriving DecidableEq, Repr

deriving instance DecidableEq for Except

/-- Entry of the texture registry: `struct TEXTURE_INFO { std::string tag; uint32_t ID; }`. -/
structure TEXTURE_INFO where
  tag : String
  ID : Nat
  deriving DecidableEq, Repr

/-- Three-component vector `glm::vec3`. -/
structure vec3 (α : Type) where
  x : α
  y : α
  z : α
  deriving DecidableEq, Repr

/-- Four-component vector `glm::vec4`. -/
structure vec4 (α : Type) where
  x : α
  y : α
  z : α
  w : α
  deriving DecidableEq, Repr

/-- Matrix `glm::mat4`, stored by columns: `c0` is `m[0]`, and so on. -/
structure mat4 (α : Type) where
  c0 : vec4 α
  c1 : vec4 α
  c2 : vec4 α
  c3 : vec4 α
  deriving DecidableEq, Repr

/-- Value passed to one of the `set...Value` members of the shader manager. -/
inductive UniformValue (α : Type) where
  | int (v : Int)
  | float (v : α)
  | vec3 (v : vec3 α)
  | vec4 (v : vec4 α)
  | mat4 (m : mat4 α)
  | sampler2D (v : Int)
  deriving DecidableEq, Repr

/-- Lighting material: `struct OBJECT_MATERIAL`. -/
structure OBJECT_MATERIAL (α : Type) where
  ambientStrength : α
  ambientColor : vec3 α
  diffuseColor : vec3 α
  specularColor : vec3 α
  shininess : α
  tag : String
  deriving DecidableEq, Repr

/-- Modelled from the spec: the header that declares `m_textureIDs` is not among the
sources; the comment of `BindGLTextures` ("There are up to 16 slots") and section 3 of
the specification give the array 16 elements. -/
def MAX_TEXTURES : Nat := 16

/-- The members of `SceneManager` that the embedded functions read or write.
`m_pShaderManager` records whether the pointer is non-NULL; `m_textureIDs` lists every
slot of the array, registered or not. -/
structure SceneManager (α : Type) where
  m_pShaderManager : Bool
  m_loadedTextures : Int
  m_textureIDs : List TEXTURE_INFO
  m_objectMaterials : List (OBJECT_MATERIAL α)
  deriving DecidableEq, Repr

/-- Read of `m_textureIDs[index]`. -/
def readSlot (arr : List TEXTURE_INFO) (index : Int) : Except Fault TEXTURE_INFO :=
  if 0 ≤ index then
    match arr[index.toNat]? with
    | some e => .ok e
    | none => .error .outOfBounds
  else .error .outOfBounds

/-- Write through `m_textureIDs[index]`: the element is replaced by `f` of itself. -/
def writeSlot (arr : List TEXTURE_INFO) (index : Int) (f : TEXTURE_INFO → TEXTURE_INFO) :
    Except Fault (List TEXTURE_INFO) :=
  if 0 ≤ index then
    match arr[index.toNat]? with
    | some e => .ok (arr.set index.toNat (f e))
    | none => .error .outOfBounds
  else .error .outOfBounds

/-- A registry state as the specification speaks of it: the array has its 16 slots, the count
of loaded textures lies within it, and every handle is a 32-bit unsigned value. -/
def WellFormed {α : Type} (s : SceneManager α) : Prop :=
  s.m_textureIDs.length = MAX_TEXTURES ∧
  0 ≤ s.m_loadedTextures ∧ s.m_loadedTextures ≤ (MAX_TEXTURES : Int) ∧
  ∀ e ∈ s.m_textureIDs, e.ID < 4294967296

instance {α : Type} (s : SceneManager α) : Decidable (WellFormed s) := by
  unfold WellFormed; infer_instance

/-- The entry registered at `index`, if `index` is one of the first `m_loadedTextures`
slots. -/
def registered {α : Type} (s : SceneManager α) (index : Int) : Option TEXTURE_INFO :=
  if 0 ≤ index ∧ index < s.m_loadedTextures then s.m_textureIDs[index.toNat]? else none

/-- The texture registry: the first `m_loadedTextures` entries of `m_textureIDs`, in
registration order. -/
def registry {α : Type} (s : SceneManager α) : List TEXTURE_INFO :=
  s.m_textureIDs.take s.m_loadedTextures.toNat

/-! ## Image decoder -/

/-- What `stbi_load` reports for a file it could decode. -/
structure STBI_IMAGE where
  width : Int
  height : Int
  colorChannels : Int
  deriving DecidableEq, Repr

/-! ## Texture registry -/

/-- Local variables of `FindTextureID`. -/
structure FindTextureIDLocals where
  textureID : Int
  index : Int
  bFound : Bool
  deriving DecidableEq, Repr

/-- The `while` loop of `FindTextureID`. -/
def FindTextureID.loop {α : Type} (s : SceneManager α) (tag : String) :
    Nat → FindTextureIDLocals → Except Fault FindTextureIDLocals
  | 0, st =>
    if st.index < s.m_loadedTextures ∧ st.bFound = false then .error .fuelExhausted
    else .ok st
  | fuel + 1, st =>
    if st.index < s.m_loadedTextures ∧ st.bFound = false then
      match readSlot s.m_textureIDs st.index with
      | .error f => .error f
      | .ok e =>
        if e.tag = tag then
          FindTextureID.loop s tag fuel { st with textureID := toInt e.ID, bFound := true }
        else
          FindTextureID.loop s tag fuel { st with index := st.index + 1 }
    else .ok st

/-- `int SceneManager::FindTextureID(std::string tag)`. -/
def FindTextureID {α : Type} (s : SceneManager α) (tag : String) : Except Fault Int :=
  match FindTextureID.loop s tag s.m_loadedTextures.toNat
      { textureID := -1, index := 0, bFound := false } with
  | .error f => .error f
  | .ok st => .ok st.textureID

/-- Local variables of `FindTextureSlot`. -/
structure FindTextureSlotLocals where
  textureSlot : Int
  index : Int
  bFound : Bool
  deriving DecidableEq, Repr

/-- The `while` loop of `FindTextureSlot`. -/
def FindTextureSlot.loop {α : Type} (s : SceneManager α) (tag : String) :
    Nat → FindTextureSlotLocals → Except Fault FindTextureSlotLocals
  | 0, st =>
    if st.index < s.m_loadedTextures ∧ st.bFound = false then .error .fuelExhausted
    else .ok st
  | fuel + 1, st =>
    if st.index < s.m_loadedTextures ∧ st.bFound = false then
      match readSlot s.m_textureIDs st.index with
      | .error f => .error f
      | .ok e =>
        if e.tag = tag then
          FindTextureSlot.loop s tag fuel { st with textureSlot := st.index, bFound := true }
        else
          FindTextureSlot.loop s tag fuel { st with index := st.index + 1 }
    else .ok st

/-- `int SceneManager::FindTextureSlot(std::string tag)`. -/
def FindTextureSlot {α : Type} (s : SceneManager α) (tag : String) : Except Fault Int :=
  match FindTextureSlot.loop s tag s.m_loadedTextures.toNat
      { textureSlot := -1, index := 0, bFound := false } with
  | .error f => .error f
  | .ok st => .ok st.textureSlot

/-- `bool SceneManager::CreateGLTexture(const char* filename, std::string tag)`.
`stbi_load` is the image decoder (`none` for a NULL result) and `glGenTextures` the
texture name that OpenGL generates for this call.  The OpenGL calls that upload the
image act on the GL context only and are not part of the registry state. -/
def CreateGLTexture {α : Type} (stbi_load : String → Option STBI_IMAGE) (glGenTextures : Nat)
    (s : SceneManager α) (filename : String) (tag : String) :
    Except Fault (Bool × SceneManager α) :=
  match stbi_load filename with
  | some image =>
    let textureID : Nat := glGenTextures
    -- register the loaded texture and associate it with the tag
    let register : Except Fault (Bool × SceneManager α) :=
      match writeSlot s.m_textureIDs s.m_loadedTextures (fun e => { e with ID := textureID }) with
      | .error f => .error f
      | .ok arr1 =>
        match writeSlot arr1 s.m_loadedTextures (fun e => { e with tag := tag }) with
        | .error f => .error f
        | .ok arr2 =>
          .ok (true, { s with m_textureIDs := arr2, m_loadedTextures := s.m_loadedTextures + 1 })
    if image.colorChannels = 3 then register
    else if image.colorChannels = 4 then register
    else .ok (false, s)
  | none => .ok (false, s)

/-! ## Material list -/

/-- Local variables of `FindMaterial`, with the output parameter `material`. -/
structure FindMaterialLocals (α : Type) where
  index : Int
  bFound : Bool
  material : OBJECT_MATERIAL α
  deriving DecidableEq, Repr

/-- Read of `m_objectMaterials[index]`. -/
def readMaterial {α : Type} (v : List (OBJECT_MATERIAL α)) (index : Int) :
    Except Fault (OBJECT_MATERIAL α) :=
  if 0 ≤ index then
    match v[index.toNat]? with
    | some m => .ok m
    | none => .error .outOfBounds
  else .error .outOfBounds

/-- The `while` loop of `FindMaterial`. -/
def FindMaterial.loop {α : Type} (s : SceneManager α) (tag : String) :
    Nat → FindMaterialLocals α → Except Fault (FindMaterialLocals α)
  | 0, st =>
    if st.index < (s.m_objectMaterials.length : Int) ∧ st.bFound = false then
      .error .fuelExhausted
    else .ok st
  | fuel + 1, st =>
    if st.index < (s.m_objectMaterials.length : Int) ∧ st.bFound = false then
      match readMaterial s.m_objectMaterials st.index with
      | .error f => .error f
      | .ok m =>
        if m.tag = tag then
          FindMaterial.loop s tag fuel
            { st with
              bFound := true
              material :=
                { st.material with
                  ambientColor := m.ambientColor
                  ambientStrength := m.ambientStrength
                  diffuseColor := m.diffuseColor
                  specularColor := m.specularColor
                  shininess := m.shininess } }
        else
          FindMaterial.loop s tag fuel { st with index := st.index + 1 }
    else .ok st

/-- `bool SceneManager::FindMaterial(std::string tag, OBJECT_MATERIAL& material)`: the
result is the returned flag together with the final value of `material`. -/
def FindMaterial {α : Type} (s : SceneManager α) (tag : String) (material : OBJECT_MATERIAL α) :
    Except Fault (Bool × OBJECT_MATERIAL α) :=
  if s.m_objectMaterials.length = 0 then
    .ok (false, material)
  else
    match FindMaterial.loop s tag s.m_objectMaterials.length
        { index := 0, bFound := false, material := material } with
    | .error f => .error f
    | .ok st => .ok (true, st.material)

/-- `void SceneManager::SetShaderMaterial(std::string materialTag)`: the calls made on
the shader manager.  `uninitialised` is the content of the local `material` before
`FindMaterial` fills it. -/
def SetShaderMaterial {α : Type} (s : SceneManager α) (uninitialised : OBJECT_MATERIAL α)
    (materialTag : String) : Except Fault (List (String × UniformValue α)) :=
  if s.m_objectMaterials.length > 0 then
    match FindMaterial s materialTag uninitialised with
    | .error f => .error f
    | .ok (bReturn, material) =>
      if bReturn = true then
        if s.m_pShaderManager then
          .ok [("material.ambientColor", .vec3 material.ambientColor),
               ("material.ambientStrength", .float material.ambientStrength),
               ("material.diffuseColor", .vec3 material.diffuseColor),
               ("material.specularColor", .vec3 material.specularColor),
               ("material.shininess", .float material.shininess)]
        else .error .nullPointer
      else .ok []
  else .ok []

/-- `void SceneManager::DefineObjectMaterials()`. -/
def DefineObjectMaterials {α : Type} [OfScientific α] (s : SceneManager α) : SceneManager α :=
  let lampBody : OBJECT_MATERIAL α :=
    { ambientColor := ⟨0.3, 0.3, 0.3⟩, diffuseColor := ⟨0.6, 0.6, 0.6⟩,
      specularColor := ⟨0.8, 0.8, 0.8⟩, ambientStrength := 0.2, shininess := 64.0,
      tag := "lampBody" }
  let lampKnob : OBJECT_MATERIAL α :=
    { ambientColor := ⟨0.5, 0.3, 0.1⟩, diffuseColor := ⟨0.7, 0.5, 0.2⟩,
      specularColor := ⟨0.9, 0.8, 0.6⟩, ambientStrength := 0.2, shininess := 32.0,
      tag := "lampKnob" }
  let cupMaterial : OBJECT_MATERIAL α :=
    { ambientColor := ⟨0.05, 0.2, 0.05⟩, diffuseColor := ⟨0.1, 0.1, 0.1⟩,
      specularColor := ⟨0.8, 1.0, 0.8⟩, ambientStrength := 0.2, shininess := 128.0,
      tag := "cup" }
  let pencilMaterial : OBJECT_MATERIAL α :=
    { ambientColor := ⟨1.0, 1.0, 0.0⟩, diffuseColor := ⟨0.9, 0.8, 0.1⟩,
      specularColor := ⟨0.3, 0.3, 0.1⟩, ambientStrength := 0.3, shininess := 16.0,
      tag := "pencil" }
  let monitorMaterial : OBJECT_MATERIAL α :=
    { ambientColor := ⟨0.05, 0.05, 0.05⟩, diffuseColor := ⟨0.1, 0.1, 0.1⟩,
      specularColor := ⟨0.2, 0.2, 0.2⟩, ambientStrength := 0.1, shininess := 10.0,
      tag := "monitor" }
  let monitorStandMaterial : OBJECT_MATERIAL α :=
    { ambientColor := ⟨0.3, 0.3, 0.3⟩, diffuseColor := ⟨0.5, 0.5, 0.5⟩,
      specularColor := ⟨0.7, 0.7, 0.7⟩, ambientStrength := 0.2, shininess := 40.0,
      tag := "monitorStand" }
  let bookMaterial : OBJECT_MATERIAL α :=
    { ambientColor := ⟨0.0, 0.0, 0.6⟩, diffuseColor := ⟨0.1, 0.1, 0.8⟩,
      specularColor := ⟨0.3, 0.3, 0.3⟩, ambientStrength := 0.2, shininess := 20.0,
      tag := "bluebook" }
  { s with
    m_objectMaterials :=
      s.m_objectMaterials ++
        [lampBody, lampKnob, cupMaterial, pencilMaterial, monitorMaterial,
         monitorStandMaterial, bookMaterial] }

/-! ## Vector and matrix arithmetic (glm)

The transform functions follow `glm/ext/matrix_transform.inl` and
`glm/gtx/transform.inl`; scalars are taken from a field, so the arithmetic is exact. -/

/-- The functions of the C math library that glm calls, and the constant pi. -/
structure MathOps (α : Type) where
  cos : α → α
  sin : α → α
  sqrt : α → α
  pi : α

section

variable {α : Type} [Field α]

/-- Sum of two `vec4`. -/
def vec4.add (a b : vec4 α) : vec4 α :=
  ⟨a.x + b.x, a.y + b.y, a.z + b.z, a.w + b.w⟩

/-- Product of a `vec4` with a scalar. -/
def vec4.mulScalar (a : vec4 α) (k : α) : vec4 α :=
  ⟨a.x * k, a.y * k, a.z * k, a.w * k⟩

/-- Product of a `vec3` with a scalar. -/
def vec3.mulScalar (a : vec3 α) (k : α) : vec3 α :=
  ⟨a.x * k, a.y * k, a.z * k⟩

/-- Product of a scalar with a `vec3`. -/
def vec3.scalarMul (k : α) (a : vec3 α) : vec3 α :=
  ⟨k * a.x, k * a.y, k * a.z⟩

instance : Add (vec4 α) := ⟨vec4.add⟩

/-- The matrix `glm::mat4(1.0f)`. -/
def mat4.identity : mat4 α :=
  ⟨⟨1, 0, 0, 0⟩, ⟨0, 1, 0, 0⟩, ⟨0, 0, 1, 0⟩, ⟨0, 0, 0, 1⟩⟩

/-- Product `m1 * m2` of two `glm::mat4`. -/
def mat4.mul (m1 m2 : mat4 α) : mat4 α :=
  { c0 := m1.c0.mulScalar m2.c0.x + m1.c1.mulScalar m2.c0.y + m1.c2.mulScalar m2.c0.z
            + m1.c3.mulScalar m2.c0.w
    c1 := m1.c0.mulScalar m2.c1.x + m1.c1.mulScalar m2.c1.y + m1.c2.mulScalar m2.c1.z
            + m1.c3.mulScalar m2.c1.w
    c2 := m1.c0.mulScalar m2.c2.x + m1.c1.mulScalar m2.c2.y + m1.c2.mulScalar m2.c2.z
            + m1.c3.mulScalar m2.c2.w
    c3 := m1.c0.mulScalar m2.c3.x + m1.c1.mulScalar m2.c3.y + m1.c2.mulScalar m2.c3.z
            + m1.c3.mulScalar m2.c3.w }

instance : Mul (mat4 α) := ⟨mat4.mul⟩

/-- Product `m * v` of a `glm::mat4` with a `glm::vec4`. -/
def mat4.mulVec (m : mat4 α) (v : vec4 α) : vec4 α :=
  (m.c0.mulScalar v.x + m.c1.mulScalar v.y) + (m.c2.mulScalar v.z + m.c3.mulScalar v.w)

/-- `glm::radians`: glm multiplies the angle by the constant
0.01745329251994329576923690768489, the decimal expansion of pi / 180. -/
def glm.radians (ops : MathOps α) (degrees : α) : α :=
  degrees * (ops.pi / 180)

/-- `glm::dot` on `vec3`. -/
def glm.dot (a b : vec3 α) : α :=
  a.x * b.x + a.y * b.y + a.z * b.z

/-- `glm::inversesqrt`. -/
def glm.inversesqrt (ops : MathOps α) (x : α) : α :=
  1 / ops.sqrt x

/-- `glm::normalize` on `vec3`. -/
def glm.normalize (ops : MathOps α) (v : vec3 α) : vec3 α :=
  v.mulScalar (glm.inversesqrt ops (glm.dot v v))

/-- `glm::translate(m, v)`. -/
def glm.translateMat (m : mat4 α) (v : vec3 α) : mat4 α :=
  { m with c3 := m.c0.mulScalar v.x + m.c1.mulScalar v.y + m.c2.mulScalar v.z + m.c3 }

/-- `glm::translate(v)` of `glm/gtx/transform`. -/
def glm.translate (v : vec3 α) : mat4 α :=
  glm.translateMat mat4.identity v

/-- `glm::scale(m, v)`. -/
def glm.scaleMat (m : mat4 α) (v : vec3 α) : mat4 α :=
  { c0 := m.c0.mulScalar v.x
    c1 := m.c1.mulScalar v.y
    c2 := m.c2.mulScalar v.z
    c3 := m.c3 }

/-- `glm::scale(v)` of `glm/gtx/transform`. -/
def glm.scale (v : vec3 α) : mat4 α :=
  glm.scaleMat mat4.identity v

/-- `glm::rotate(m, angle, v)`. -/
def glm.rotateMat (ops : MathOps α) (m : mat4 α) (angle : α) (v : vec3 α) : mat4 α :=
  let a := angle
  let c := ops.cos a
  let s := ops.sin a
  let axis := glm.normalize ops v
  let temp := vec3.scalarMul (1 - c) axis
  let r00 := c + temp.x * axis.x
  let r01 := temp.x * axis.y + s * axis.z
  let r02 := temp.x * axis.z - s * axis.y
  let r10 := temp.y * axis.x - s * axis.z
  let r11 := c + temp.y * axis.y
  let r12 := temp.y * axis.z + s * axis.x
  let r20 := temp.z * axis.x + s * axis.y
  let r21 := temp.z * axis.y - s * axis.x
  let r22 := c + temp.z * axis.z
  { c0 := m.c0.mulScalar r00 + m.c1.mulScalar r01 + m.c2.mulScalar r02
    c1 := m.c0.mulScalar r10 + m.c1.mulScalar r11 + m.c2.mulScalar r12
    c2 := m.c0.mulScalar r20 + m.c1.mulScalar r21 + m.c2.mulScalar r22
    c3 := m.c3 }

/-- `glm::rotate(angle, v)` of `glm/gtx/transform`. -/
def glm.rotate (ops : MathOps α) (angle : α) (v : vec3 α) : mat4 α :=
  glm.rotateMat ops mat4.identity angle v

/-- The matrix of mathematics that a `glm::mat4` stands for: entry `(i, j)` is
component `i` of column `j`. -/
def mat4.toMatrix (m : mat4 α) : Matrix (Fin 4) (Fin 4) α :=
  !![m.c0.x, m.c1.x, m.c2.x, m.c3.x;
     m.c0.y, m.c1.y, m.c2.y, m.c3.y;
     m.c0.z, m.c1.z, m.c2.z, m.c3.z;
     m.c0.w, m.c1.w, m.c2.w, m.c3.w]

/-- The point `p` in homogeneous coordinates. -/
def vec3.toPoint (p : vec3 α) : vec4 α :=
  ⟨p.x, p.y, p.z, 1⟩

end

/-! ## Model transform -/

/-- Name of the model matrix uniform. -/
def g_ModelName : String := "model"

section

variable {α : Type} [Field α]

/-- The local `modelView` that `SetTransformations` computes. -/
def SetTransformations.modelView (ops : MathOps α) (scaleXYZ : vec3 α)
    (XrotationDegrees YrotationDegrees ZrotationDegrees : α) (positionXYZ : vec3 α) : mat4 α :=
  let scale := glm.scale scaleXYZ
  let rotationX := glm.rotate ops (glm.radians ops XrotationDegrees) ⟨1, 0, 0⟩
  let rotationY := glm.rotate ops (glm.radians ops YrotationDegrees) ⟨0, 1, 0⟩
  let rotationZ := glm.rotate ops (glm.radians ops ZrotationDegrees) ⟨0, 0, 1⟩
  let translation := glm.translate positionXYZ
  translation * rotationX * rotationY * rotationZ * scale

/-- `void SceneManager::SetTransformations(...)`: the calls made on the shader manager. -/
def SetTransformations (ops : MathOps α) (s : SceneManager α) (scaleXYZ : vec3 α)
    (XrotationDegrees YrotationDegrees ZrotationDegrees : α) (positionXYZ : vec3 α) :
    List (String × UniformValue α) :=
  let modelView := SetTransformations.modelView ops scaleXYZ XrotationDegrees YrotationDegrees
    ZrotationDegrees positionXYZ
  if s.m_pShaderManager then [(g_ModelName, .mat4 modelView)] else []

/-! ### The transform as the specification words it -/

/-- Specification: the matrix that scales by `v`. -/
def specScale (v : vec3 α) : Matrix (Fin 4) (Fin 4) α :=
  !![v.x, 0, 0, 0;
     0, v.y, 0, 0;
     0, 0, v.z, 0;
     0, 0, 0, 1]

/-- Specification: the matrix that translates by `v`. -/
def specTranslation (v : vec3 α) : Matrix (Fin 4) (Fin 4) α :=
  !![1, 0, 0, v.x;
     0, 1, 0, v.y;
     0, 0, 1, v.z;
     0, 0, 0, 1]

/-- Specification: rotation about the X axis by an angle with cosine `c` and sine `s`. -/
def specRotationX (c s : α) : Matrix (Fin 4) (Fin 4) α :=
  !![1, 0, 0, 0;
     0, c, -s, 0;
     0, s, c, 0;
     0, 0, 0, 1]

/-- Specification: rotation about the Y axis by an angle with cosine `c` and sine `s`. -/
def specRotationY (c s : α) : Matrix (Fin 4) (Fin 4) α :=
  !![c, 0, s, 0;
     0, 1, 0, 0;
     -s, 0, c, 0;
     0, 0, 0, 1]

/-- Specification: rotation about the Z axis by an angle with cosine `c` and sine `s`. -/
def specRotationZ (c s : α) : Matrix (Fin 4) (Fin 4) α :=
  !![c, -s, 0, 0;
     s, c, 0, 0;
     0, 0, 1, 0;
     0, 0, 0, 1]

/-- Specification: the point `p` scaled component by component. -/
def specScalePoint (v p : vec3 α) : vec3 α :=
  ⟨v.x * p.x, v.y * p.y, v.z * p.z⟩

/-- Specification: the point `p` rotated about the X axis. -/
def specRotateX (c s : α) (p : vec3 α) : vec3 α :=
  ⟨p.x, c * p.y - s * p.z, s * p.y + c * p.z⟩

/-- Specification: the point `p` rotated about the Y axis. -/
def specRotateY (c s : α) (p : vec3 α) : vec3 α :=
  ⟨c * p.x + s * p.z, p.y, -s * p.x + c * p.z⟩

/-- Specification: the point `p` rotated about the Z axis. -/
def specRotateZ (c s : α) (p : vec3 α) : vec3 α :=
  ⟨c * p.x - s * p.y, s * p.x + c * p.y, p.z⟩

/-- Specification: the point `p` moved by `v`. -/
def specTranslatePoint (v p : vec3 α) : vec3 α :=
  ⟨v.x + p.x, v.y + p.y, v.z + p.z⟩

end

/-! ## Sample states -/

/-- A scene manager whose registry holds `entries`; the remaining slots of the 16 are
unused and there are no materials. -/
def registryOf (entries : List TEXTURE_INFO) : SceneManager ℚ :=
  { m_pShaderManager := true
    m_loadedTextures := (entries.length : Int)
    m_textureIDs := entries ++ List.replicate (MAX_TEXTURES - entries.length) ⟨"", 0⟩
    m_objectMaterials := [] }

/-- An image decoder that fails on every file when `channels` is `none` and otherwise
decodes every file as a 64 by 64 image with that many channels. -/
def decodeAs (channels : Option Int) : String → Option STBI_IMAGE :=
  fun _ => channels.map (fun c => { width := 64, height := 64, colorChannels := c })

/-- Sixteen registered textures: a full registry. -/
def fullRegistry : SceneManager ℚ :=
  registryOf ((List.range 16).map (fun n => { tag := "texture", ID := n + 1 }))

/-- A material value standing for the content of an output parameter before
`FindMaterial` is called. -/
def staleMaterial : OBJECT_MATERIAL ℚ :=
  { ambientStrength := 9, ambientColor := ⟨9, 9, 9⟩, diffuseColor := ⟨9, 9, 9⟩,
    specularColor := ⟨9, 9, 9⟩, shininess := 9, tag := "stale" }

/-- The scene manager after `DefineObjectMaterials` has run once on an empty material
list. -/
def sceneMaterials : SceneManager ℚ :=
  DefineObjectMaterials (registryOf [])

/-! ## Conversion between `double` and `float`

The values of the IEEE 754 formats are rational numbers.  The conversion of a `double`
to a `float`, which `ViewManager.cpp` performs where it stores a `double` in a `float`
variable, is the rounding `binary32`; the result of an operation done in `double` is
the exact result rounded by `binary64`. -/

/-- The integer nearest to `n / d`, the even one of the two in a tie (`d` positive). -/
def roundHalfEven (n d : Nat) : Nat :=
  let f := n / d
  let r := n % d
  if 2 * r < d then f
  else if d < 2 * r then f + 1
  else if f % 2 = 0 then f else f + 1

/-- Number of times `n` can be halved before it drops below 2, with at most `fuel`
halvings. -/
def ilog2Aux : Nat → Nat → Nat
  | 0, _ => 0
  | fuel + 1, n => if 2 ≤ n then ilog2Aux fuel (n / 2) + 1 else 0

/-- The integer part of the base 2 logarithm of a positive natural number. -/
def ilog2 (n : Nat) : Nat :=
  ilog2Aux n n

/-- The integer part of the base 2 logarithm of `a / b`, for positive `a` and `b`: the
`e` with `2 ^ e ≤ a / b < 2 ^ (e + 1)`. -/
def floorLog2 (a b : Nat) : Int :=
  let e0 : Int := (ilog2 a : Int) - (ilog2 b : Int)
  if 0 ≤ e0 then (if 2 ^ e0.toNat * b ≤ a then e0 else e0 - 1)
  else (if b ≤ a * 2 ^ (-e0).toNat then e0 else e0 - 1)

/-- IEEE 754 rounding to nearest, ties to even, into the binary format with `precision`
significand bits and least normal exponent `emin`: `q` is rounded to a multiple of
`2 ^ (e - (precision - 1))`, where `e` is the exponent of `q`, or `emin` if that is
larger (subnormal range).  Overflow is not modelled: the result is meaningful for
magnitudes below the largest value of the format. -/
def roundToBinary (precision : Nat) (emin : Int) (q : ℚ) : ℚ :=
  if q = 0 then 0
  else
    let a := q.num.natAbs
    let b := q.den
    let e := max (floorLog2 a b) emin
    let k : Int := e - ((precision : Int) - 1)
    let m : ℚ :=
      if 0 ≤ k then ((roundHalfEven a (b * 2 ^ k.toNat) * 2 ^ k.toNat : Nat) : ℚ)
      else mkRat (roundHalfEven (a * 2 ^ (-k).toNat) b) (2 ^ (-k).toNat)
    if q < 0 then -m else m

/-- Rounding to `float` (IEEE 754 binary32): 24 significand bits, exponents from -126. -/
def binary32 : ℚ → ℚ :=
  roundToBinary 24 (-126)

/-- Rounding to `double` (IEEE 754 binary64): 53 significand bits, exponents from -1022. -/
def binary64 : ℚ → ℚ :=
  roundToBinary 53 (-1022)

/-- The rational number `q` is a value of type `float`: the conversion to `float` leaves
it as it is, and it lies within the range of the format. -/
def IsFloat (q : ℚ) : Prop :=
  binary32 q = q ∧ -340282366920938463463374607431768211456 < q ∧
    q < 340282366920938463463374607431768211456

instance (q : ℚ) : Decidable (IsFloat q) := by
  unfold IsFloat; infer_instance

/-! ## Camera and view (ViewManager.cpp) -/

section

variable {α : Type} [Field α]

/-- Sum of two `vec3`. -/
def vec3.add (a b : vec3 α) : vec3 α :=
  ⟨a.x + b.x, a.y + b.y, a.z + b.z⟩

/-- Difference of two `vec3`. -/
def vec3.sub (a b : vec3 α) : vec3 α :=
  ⟨a.x - b.x, a.y - b.y, a.z - b.z⟩

/-- `glm::cross`. -/
def glm.cross (x y : vec3 α) : vec3 α :=
  ⟨x.y * y.z - y.y * x.z, x.z * y.x - y.z * x.x, x.x * y.y - y.x * x.y⟩

/-- `glm::lookAt(eye, center, up)`, the right-handed default. -/
def glm.lookAt (ops : MathOps α) (eye center up : vec3 α) : mat4 α :=
  let f := glm.normalize ops (center.sub eye)
  let s := glm.normalize ops (glm.cross f up)
  let u := glm.cross s f
  { c0 := ⟨s.x, u.x, -f.x, 0⟩
    c1 := ⟨s.y, u.y, -f.y, 0⟩
    c2 := ⟨s.z, u.z, -f.z, 0⟩
    c3 := ⟨-glm.dot s eye, -glm.dot u eye, glm.dot f eye, 1⟩ }

/-- `glm::perspective(fovy, aspect, zNear, zFar)`, the right-handed default with depth
range -1 to 1; `tan` is the tangent of the C math library. -/
def glm.perspective (tan : α → α) (fovy aspect zNear zFar : α) : mat4 α :=
  let tanHalfFovy := tan (fovy / 2)
  { c0 := ⟨1 / (aspect * tanHalfFovy), 0, 0, 0⟩
    c1 := ⟨0, 1 / tanHalfFovy, 0, 0⟩
    c2 := ⟨0, 0, -(zFar + zNear) / (zFar - zNear), -1⟩
    c3 := ⟨0, 0, -(2 * zFar * zNear) / (zFar - zNear), 0⟩ }

/-- `glm::ortho(left, right, bottom, top, zNear, zFar)`, the right-handed default with
depth range -1 to 1. -/
def glm.ortho (left right bottom top zNear zFar : α) : mat4 α :=
  { c0 := ⟨2 / (right - left), 0, 0, 0⟩
    c1 := ⟨0, 2 / (top - bottom), 0, 0⟩
    c2 := ⟨0, 0, -2 / (zFar - zNear), 0⟩
    c3 := ⟨-(right + left) / (right - left), -(top + bottom) / (top - bottom),
           -(zFar + zNear) / (zFar - zNear), 1⟩ }

end

/-- Modelled from the spec: `camera.h` is not among the sources.  Section 3 of the
specification gives the camera a position, a front and an up vector, yaw, pitch, zoom
and a movement speed; `ViewManager.cpp` reads and writes `Position`, `Front`, `Up` and
`Zoom`. -/
structure Camera (α : Type) where
  Position : vec3 α
  Front : vec3 α
  Up : vec3 α
  Yaw : α
  Pitch : α
  Zoom : α
  MovementSpeed : α
  deriving DecidableEq, Repr

/-- Directions of `Camera::ProcessKeyboard` that `ViewManager.cpp` uses. -/
inductive Camera_Movement where
  | FORWARD
  | BACKWARD
  | LEFT
  | RIGHT
  deriving DecidableEq, Repr

/-- The member functions of `Camera` that change the camera.  Their source is not
present, so they are parameters of the embedding: whatever is proved holds for every
implementation of them. -/
structure CameraClass (α : Type) where
  ProcessKeyboard : Camera α → Camera_Movement → α → Camera α
  ProcessMouseMovement : Camera α → α → α → Camera α
  ProcessMouseScroll : Camera α → α → Camera α

/-- Modelled from the spec: `Camera::GetViewMatrix` is not among the sources.  Section
4.5 of the specification: "standard look-at matrix from position, position+front, up". -/
def Camera.GetViewMatrix {α : Type} [Field α] (ops : MathOps α) (cam : Camera α) : mat4 α :=
  glm.lookAt ops cam.Position (cam.Position.add cam.Front) cam.Up

/-- The keys for which `glfwGetKey` reports `GLFW_PRESS`. -/
structure Keys where
  O : Bool
  P : Bool
  ESCAPE : Bool
  W : Bool
  S : Bool
  A : Bool
  D : Bool
  Q : Bool
  E : Bool
  deriving DecidableEq, Repr

/-- No key pressed. -/
def Keys.none : Keys :=
  ⟨false, false, false, false, false, false, false, false, false⟩

/-- The state that `ViewManager.cpp` works on: the members of `ViewManager`, the
variables of the anonymous namespace and the close flag of the window.  The pointers
`m_pShaderManager` and `m_pWindow` are recorded as non-NULL or NULL, `g_pCamera` as the
camera it points to. -/
structure ViewManager (α : Type) where
  m_pShaderManager : Bool
  m_pWindow : Bool
  windowShouldClose : Bool
  g_pCamera : Option (Camera α)
  gLastX : α
  gLastY : α
  gFirstMouse : Bool
  gDeltaTime : α
  gLastFrame : α
  bOrthographicProjection : Bool
  deriving DecidableEq, Repr

/-- Width of the window. -/
def WINDOW_WIDTH : Nat := 1000

/-- Height of the window. -/
def WINDOW_HEIGHT : Nat := 800

/-- Name of the view matrix uniform. -/
def g_ViewName : String := "view"

/-- Name of the projection matrix uniform. -/
def g_ProjectionName : String := "projection"

section

variable {α : Type} [Field α]

/-- The variables of the anonymous namespace as their initialisers leave them, before
any `ViewManager` is constructed. -/
def ViewManager.initial : ViewManager α :=
  { m_pShaderManager := false
    m_pWindow := false
    windowShouldClose := false
    g_pCamera := none
    gLastX := (WINDOW_WIDTH : α) / 2.0
    gLastY := (WINDOW_HEIGHT : α) / 2.0
    gFirstMouse := true
    gDeltaTime := 0.0
    gLastFrame := 0.0
    bOrthographicProjection := false }

/-- `ViewManager::ViewManager(ShaderManager* pShaderManager)`; `newCamera` is the object
that `new Camera()` creates. -/
def ViewManager.construct (v : ViewManager α) (pShaderManager : Bool) (newCamera : Camera α) :
    ViewManager α :=
  { v with
    m_pShaderManager := pShaderManager
    m_pWindow := false
    g_pCamera := some
      { newCamera with
        Position := ⟨0.0, 5.0, 12.0⟩
        Front := ⟨0.0, -0.5, -2.0⟩
        Up := ⟨0.0, 1.0, 0.0⟩
        Zoom := 80 } }

/-- `void ViewManager::Mouse_Position_Callback(GLFWwindow*, double xMousePos,
double yMousePos)`.  The parameters are of type `double`, the globals `gLastX` and
`gLastY` and the locals `xOffset` and `yOffset` of type `float`: `toFloat` is the
conversion of a `double` to a `float`, and `toDouble` the rounding of the result of a
subtraction done in `double`.  The camera after the call is the result of
`ProcessMouseMovement` on the two offsets. -/
def Mouse_Position_Callback (toDouble toFloat : α → α) (cls : CameraClass α)
    (v : ViewManager α) (xMousePos yMousePos : α) : Except Fault (ViewManager α) :=
  let v1 :=
    if v.gFirstMouse then
      { v with gLastX := toFloat xMousePos, gLastY := toFloat yMousePos, gFirstMouse := false }
    else v
  let xOffset := toFloat (toDouble (xMousePos - v1.gLastX))
  let yOffset := toFloat (toDouble (v1.gLastY - yMousePos))
  let v2 := { v1 with gLastX := toFloat xMousePos, gLastY := toFloat yMousePos }
  match v2.g_pCamera with
  | none => .error .nullPointer
  | some cam => .ok { v2 with g_pCamera := some (cls.ProcessMouseMovement cam xOffset yOffset) }

/-- `void ViewManager::Mouse_Scroll_Callback(GLFWwindow*, double xOffset, double yOffset)`;
`toFloat` is the conversion `(float)yOffset`. -/
def Mouse_Scroll_Callback (toFloat : α → α) (cls : CameraClass α) (v : ViewManager α)
    (_xOffset yOffset : α) : ViewManager α :=
  match v.g_pCamera with
  | some cam => { v with g_pCamera := some (cls.ProcessMouseScroll cam (toFloat yOffset)) }
  | none => v

/-- The movement controls of `ProcessKeyboardEvents` (lines 194 to 209), applied to the
camera. -/
def ProcessKeyboardEvents.move (cls : CameraClass α) (keys : Keys) (gDeltaTime : α)
    (camera : Camera α) : Camera α :=
  let cameraSpeed := gDeltaTime * 5.0
  let c1 := if keys.W then cls.ProcessKeyboard camera .FORWARD cameraSpeed else camera
  let c2 := if keys.S then cls.ProcessKeyboard c1 .BACKWARD cameraSpeed else c1
  let c3 := if keys.A then cls.ProcessKeyboard c2 .LEFT cameraSpeed else c2
  let c4 := if keys.D then cls.ProcessKeyboard c3 .RIGHT cameraSpeed else c3
  let c5 :=
    if keys.Q then { c4 with Position := { c4.Position with y := c4.Position.y + cameraSpeed } }
    else c4
  let c6 :=
    if keys.E then { c5 with Position := { c5.Position with y := c5.Position.y - cameraSpeed } }
    else c5
  c6

/-- `void ViewManager::ProcessKeyboardEvents()`; `keys` is what `glfwGetKey` reports
during the call. -/
def ProcessKeyboardEvents (cls : CameraClass α) (keys : Keys) (v : ViewManager α) :
    Except Fault (ViewManager α) :=
  -- reset the camera
  let afterO : Except Fault (ViewManager α) :=
    if keys.O then
      match v.g_pCamera with
      | none => .error .nullPointer
      | some cam =>
        .ok { v with
          g_pCamera := some
            { cam with
              Position := ⟨0.0, 5.0, 12.0⟩
              Front := ⟨0.0, -0.5, -2.0⟩
              Up := ⟨0.0, 1.0, 0.0⟩ } }
    else .ok v
  match afterO with
  | .error f => .error f
  | .ok v1 =>
    -- toggle perspective/orthographic mode
    let v2 :=
      if keys.P then { v1 with bOrthographicProjection := !v1.bOrthographicProjection } else v1
    -- close window if ESC is pressed
    let v3 := if keys.ESCAPE then { v2 with windowShouldClose := true } else v2
    -- if camera object is NULL, exit early
    match v3.g_pCamera with
    | none => .ok v3
    | some cam =>
      .ok { v3 with g_pCamera := some (ProcessKeyboardEvents.move cls keys v3.gDeltaTime cam) }

/-- The local `projection` of `PrepareSceneView` (lines 233 to 242). -/
def PrepareSceneView.projection (ops : MathOps α) (tan : α → α)
    (bOrthographicProjection : Bool) (Zoom : α) : mat4 α :=
  if bOrthographicProjection then
    let orthoSize : α := 10.0
    glm.ortho (-orthoSize) orthoSize (-orthoSize) orthoSize 0.1 100.0
  else
    glm.perspective tan (glm.radians ops Zoom) ((WINDOW_WIDTH : α) / (WINDOW_HEIGHT : α)) 0.1
      100.0

/-- `void ViewManager::PrepareSceneView()`: the state after the call and the calls made
on the shader manager.  `glfwGetTime` is the time that GLFW reports, a `double` that
`toFloat` converts to the `float` local `currentFrame`, and `keys` what `glfwGetKey`
reports during the call. -/
def PrepareSceneView (ops : MathOps α) (tan : α → α) (toFloat : α → α) (cls : CameraClass α)
    (glfwGetTime : α) (keys : Keys) (v : ViewManager α) :
    Except Fault (ViewManager α × List (String × UniformValue α)) :=
  -- per-frame timing
  let currentFrame := toFloat glfwGetTime
  let v1 := { v with gDeltaTime := currentFrame - v.gLastFrame, gLastFrame := currentFrame }
  -- process any keyboard events
  match ProcessKeyboardEvents cls keys v1 with
  | .error f => .error f
  | .ok v2 =>
    match v2.g_pCamera with
    | none => .error .nullPointer
    | some cam =>
      let view := Camera.GetViewMatrix ops cam
      let projection :=
        PrepareSceneView.projection ops tan v2.bOrthographicProjection cam.Zoom
      if v2.m_pShaderManager then
        .ok (v2, [(g_ViewName, .mat4 view), (g_ProjectionName, .mat4 projection),
                  ("viewPosition", .vec3 cam.Position)])
      else .error .nullPointer

end

/-! ## OpenGL texture units and the calls of the renderer -/

/-- `GL_TEXTURE0` of the OpenGL headers. -/
def GL_TEXTURE0 : Nat := 0x84C0

/-- `GL_TEXTURE1` of the OpenGL headers. -/
def GL_TEXTURE1 : Nat := 0x84C1

/-- `GL_TEXTURE` of the OpenGL headers: a matrix mode, not a texture unit. -/
def GL_TEXTURE : Nat := 0x1702

/-- `GL_TEXTURE_2D` of the OpenGL headers. -/
def GL_TEXTURE_2D : Nat := 0x0DE1

/-- Name of the uniform that switches texturing on. -/
def g_UseTextureName : String := "bUseTexture"

/-- Name of the sampler uniform. -/
def g_TextureValueName : String := "objectTexture"

/-- Name of the colour uniform. -/
def g_ColorValueName : String := "objectColor"

/-- A call that the scene manager makes on one of its collaborators: a `set...Value`
call on the shader manager, an OpenGL call, or a `Draw...Mesh` call on the meshes. -/
inductive Call (α : Type) where
  | uniform (name : String) (value : UniformValue α)
  | glActiveTexture (texture : Nat)
  | glBindTexture (target : Nat) (texture : Nat)
  | drawMesh (mesh : String)
  deriving DecidableEq, Repr

/-- The calls on the shader manager as calls of the scene manager. -/
def Call.uniforms {α : Type} (l : List (String × UniformValue α)) : List (Call α) :=
  l.map (fun p => Call.uniform p.1 p.2)

/-- The texture state of an OpenGL context: the number of texture units, the active
unit, and the texture bound to `GL_TEXTURE_2D` on each unit. -/
structure GLContext where
  maxTextureUnits : Nat
  activeTexture : Nat
  textureBinding2D : Nat → Nat

/-- OpenGL `glActiveTexture`: selects the unit `texture - GL_TEXTURE0`; any other value
raises `GL_INVALID_ENUM` and leaves the state as it is. -/
def GLContext.glActiveTexture (gl : GLContext) (texture : Nat) : GLContext :=
  if GL_TEXTURE0 ≤ texture ∧ texture < GL_TEXTURE0 + gl.maxTextureUnits then
    { gl with activeTexture := texture - GL_TEXTURE0 }
  else gl

/-- OpenGL `glBindTexture`: binds `texture` to the target on the active unit. -/
def GLContext.glBindTexture (gl : GLContext) (target texture : Nat) : GLContext :=
  if target = GL_TEXTURE_2D then
    { gl with
      textureBinding2D := fun unit =>
        if unit = gl.activeTexture then texture else gl.textureBinding2D unit }
  else gl

/-- The state that decides which texture a draw samples: the OpenGL texture state and
the last values written to the uniforms `bUseTexture` and `objectTexture`. -/
structure Pipeline where
  gl : GLContext
  bUseTexture : Option Int
  objectTexture : Option Int

/-- Effect of one call on the pipeline. -/
def Pipeline.step {α : Type} (p : Pipeline) : Call α → Pipeline
  | .uniform name value =>
    if name = g_UseTextureName then
      match value with
      | .int v => { p with bUseTexture := some v }
      | _ => p
    else if name = g_TextureValueName then
      match value with
      | .sampler2D v => { p with objectTexture := some v }
      | _ => p
    else p
  | .glActiveTexture texture => { p with gl := p.gl.glActiveTexture texture }
  | .glBindTexture target texture => { p with gl := p.gl.glBindTexture target texture }
  | .drawMesh _ => p

/-- The pipeline after a sequence of calls. -/
def Pipeline.run {α : Type} (p : Pipeline) : List (Call α) → Pipeline
  | [] => p
  | c :: rest => Pipeline.run (p.step c) rest

/-- What a draw call finds: the mesh drawn, the uniforms `bUseTexture` and
`objectTexture`, the active texture unit and the texture bound on it. -/
structure DrawSnapshot where
  mesh : String
  bUseTexture : Option Int
  objectTexture : Option Int
  activeTexture : Nat
  boundTexture : Nat
  deriving DecidableEq, Repr

/-- The snapshots of the draw calls in a sequence of calls, in order. -/
def Pipeline.draws {α : Type} (p : Pipeline) : List (Call α) → List DrawSnapshot
  | [] => []
  | c :: rest =>
    match c with
    | .drawMesh mesh =>
      { mesh := mesh
        bUseTexture := p.bUseTexture
        objectTexture := p.objectTexture
        activeTexture := p.gl.activeTexture
        boundTexture := p.gl.textureBinding2D p.gl.activeTexture } :: Pipeline.draws p rest
    | _ => Pipeline.draws (p.step c) rest

/-- A pipeline in which nothing has been bound or uploaded yet. -/
def Pipeline.fresh (maxTextureUnits : Nat) : Pipeline :=
  { gl := { maxTextureUnits := maxTextureUnits, activeTexture := 0, textureBinding2D := fun _ => 0 }
    bUseTexture := none
    objectTexture := none }

/-! ## Binding and selecting textures (SceneManager.cpp) -/

/-- The `for` loop of `BindGLTextures`, from index `i` on. -/
def BindGLTextures.loop {α : Type} (s : SceneManager α) :
    Nat → Int → Except Fault (List (Call α))
  | 0, i => if i < s.m_loadedTextures then .error .fuelExhausted else .ok []
  | fuel + 1, i =>
    if i < s.m_loadedTextures then
      match readSlot s.m_textureIDs i with
      | .error f => .error f
      | .ok e =>
        match BindGLTextures.loop s fuel (i + 1) with
        | .error f => .error f
        | .ok rest =>
          .ok (.glActiveTexture (GL_TEXTURE0 + i.toNat) :: .glBindTexture GL_TEXTURE_2D e.ID
            :: rest)
    else .ok []

/-- `void SceneManager::BindGLTextures()`: the OpenGL calls it makes. -/
def BindGLTextures {α : Type} (s : SceneManager α) : Except Fault (List (Call α)) :=
  BindGLTextures.loop s s.m_loadedTextures.toNat 0

/-- `void SceneManager::SetShaderTexture(std::string textureTag)`: the calls made on the
shader manager. -/
def SetShaderTexture {α : Type} (s : SceneManager α) (textureTag : String) :
    Except Fault (List (String × UniformValue α)) :=
  if s.m_pShaderManager then
    match FindTextureSlot s textureTag with
    | .error f => .error f
    | .ok textureID =>
      .ok [(g_UseTextureName, .int 1), (g_TextureValueName, .sampler2D textureID)]
  else .ok []

/-- `void SceneManager::SetShaderColor(float, float, float, float)`: the calls made on
the shader manager. -/
def SetShaderColor {α : Type} (s : SceneManager α)
    (redColorValue greenColorValue blueColorValue alphaValue : α) :
    List (String × UniformValue α) :=
  let currentColor : vec4 α := ⟨redColorValue, greenColorValue, blueColorValue, alphaValue⟩
  if s.m_pShaderManager then
    [(g_UseTextureName, .int 0), (g_ColorValueName, .vec4 currentColor)]
  else []

/-- `void SceneManager::LoadSceneTextures()`.  `glGenTextures k` is the texture name
that OpenGL generates in the call of `CreateGLTexture` number `k`. -/
def LoadSceneTextures {α : Type} (stbi_load : String → Option STBI_IMAGE)
    (glGenTextures : Nat → Nat) (s : SceneManager α) : Except Fault (SceneManager α) := do
  let (_, s) ← CreateGLTexture stbi_load (glGenTextures 0) s
    "../../Utilities/textures/knife_handle.jpg" "woodTexture"
  let (_, s) ← CreateGLTexture stbi_load (glGenTextures 1) s
    "../../Utilities/textures/book.jpg" "backDrop"
  let (_, s) ← CreateGLTexture stbi_load (glGenTextures 2) s
    "../../Utilities/textures/monitorscreen.jpg" "monScreen"
  let (_, s) ← CreateGLTexture stbi_load (glGenTextures 3) s
    "../../Utilities/textures/pckeyboard.jpg" "pcKey"
  let (_, s) ← CreateGLTexture stbi_load (glGenTextures 4) s
    "../../Utilities/textures/stainless_end.jpg" "penCup"
  let (_, s) ← CreateGLTexture stbi_load (glGenTextures 5) s
    "../../Utilities/textures/circular-brushed-gold-texture.jpg" "lampGold"
  let (_, s) ← CreateGLTexture stbi_load (glGenTextures 6) s
    "../../Utilities/textures/donut_tex.jpg" "donutTex"
  return s

/-- What `CreateGLTexture` number `k` of `LoadSceneTextures` finds and leaves: all 16
slots exist, at most `k` textures are registered, and the slots from the count on are
those of the array `orig` that the loading started with. -/
def LoadInvariant {α : Type} (orig : List TEXTURE_INFO) (k : Nat) (s : SceneManager α) : Prop :=
  s.m_textureIDs.length = MAX_TEXTURES ∧ 0 ≤ s.m_loadedTextures ∧
  s.m_loadedTextures ≤ (k : Int) ∧
  ∀ j : Nat, s.m_loadedTextures ≤ (j : Int) → s.m_textureIDs[j]? = orig[j]?

/-- Specification of `BindGLTextures`: the calls that bind the entries `es` to
consecutive texture units, starting at unit `i`, in the order of the list. -/
def bindCalls {α : Type} (i : Nat) : List TEXTURE_INFO → List (Call α)
  | [] => []
  | e :: es =>
    .glActiveTexture (GL_TEXTURE0 + i) :: .glBindTexture GL_TEXTURE_2D e.ID :: bindCalls (i + 1) es

/-! ## The scene (SceneManager.cpp, RenderScene) -/

/-- The local variables of `RenderScene`, together with the calls made so far. -/
structure RenderLocals (α : Type) where
  scaleXYZ : vec3 α
  XrotationDegrees : α
  YrotationDegrees : α
  ZrotationDegrees : α
  positionXYZ : vec3 α
  calls : List (Call α)

section

variable {α : Type} [Field α]

/-- The statements that end every textured object of `RenderScene`:
`SetTransformations` on the locals, `SetShaderTexture(textureTag)`,
`glActiveTexture(unit)`, `glBindTexture(GL_TEXTURE_2D, FindTextureID(bindTag))` and the
draw call of the mesh. -/
def RenderScene.drawTextured (ops : MathOps α) (s : SceneManager α) (l : RenderLocals α)
    (textureTag : String) (unit : Nat) (bindTag : String) (mesh : String) :
    Except Fault (RenderLocals α) :=
  let transform := SetTransformations ops s l.scaleXYZ l.XrotationDegrees l.YrotationDegrees
    l.ZrotationDegrees l.positionXYZ
  match SetShaderTexture s textureTag with
  | .error f => .error f
  | .ok shaderTexture =>
    match FindTextureID s bindTag with
    | .error f => .error f
    | .ok textureID =>
      .ok { l with
        calls := l.calls ++ Call.uniforms transform ++ Call.uniforms shaderTexture ++
          [.glActiveTexture unit, .glBindTexture GL_TEXTURE_2D (toGLuint textureID),
           .drawMesh mesh] }

/-- The statements that end every object of `RenderScene` drawn with a material:
`SetTransformations` on the locals, `SetShaderMaterial(materialTag)` and the draw call
of the mesh. -/
def RenderScene.drawMaterial (ops : MathOps α) (s : SceneManager α)
    (uninitialised : OBJECT_MATERIAL α) (l : RenderLocals α) (materialTag : String)
    (mesh : String) : Except Fault (RenderLocals α) :=
  let transform := SetTransformations ops s l.scaleXYZ l.XrotationDegrees l.YrotationDegrees
    l.ZrotationDegrees l.positionXYZ
  match SetShaderMaterial s uninitialised materialTag with
  | .error f => .error f
  | .ok shaderMaterial =>
    .ok { l with
      calls := l.calls ++ Call.uniforms transform ++ Call.uniforms shaderMaterial ++
        [.drawMesh mesh] }

/-- Lines 536 to 556: the declarations, "Enable texture usage" and the floor plane. -/
def RenderScene.floorPlane (ops : MathOps α) (s : SceneManager α) :
    Except Fault (RenderLocals α) :=
  if s.m_pShaderManager then
    RenderScene.drawTextured ops s
      { scaleXYZ := ⟨20.0, 1.0, 6.0⟩
        XrotationDegrees := 0.0
        YrotationDegrees := 0.0
        ZrotationDegrees := 0.0
        positionXYZ := ⟨0.0, -5.0, 0.0⟩
        calls := [.uniform "bUseTexture" (.int 1), .uniform "bUseLighting" (.int 1)] }
      "woodTexture" GL_TEXTURE0 "woodTexture" "Plane"
  else .error .nullPointer

/-- Lines 558 to 572: the book, and the reset of the rotations after it. -/
def RenderScene.book (ops : MathOps α) (s : SceneManager α) (l : RenderLocals α) :
    Except Fault (RenderLocals α) :=
  match RenderScene.drawTextured ops s
      { l with
        scaleXYZ := ⟨6.0, 1.0, 5.0⟩, positionXYZ := ⟨12.0, -4.5, -0.5⟩
        YrotationDegrees := -30.0 }
      "backDrop" GL_TEXTURE1 "backDrop" "Box" with
  | .error f => .error f
  | .ok l1 =>
    .ok { l1 with XrotationDegrees := 0.0, YrotationDegrees := 0.0, ZrotationDegrees := 0.0 }

/-- Lines 574 to 583: the monitor screen. -/
def RenderScene.monitorScreen (ops : MathOps α) (s : SceneManager α) (l : RenderLocals α) :
    Except Fault (RenderLocals α) :=
  RenderScene.drawTextured ops s
    { l with scaleXYZ := ⟨12.0, 8.0, 0.4⟩, positionXYZ := ⟨0.0, 2.0, -1.5⟩ }
    "monscreen" GL_TEXTURE1 "monScreen" "Box"

/-- Lines 585 to 594: the keyboard. -/
def RenderScene.keyboard (ops : MathOps α) (s : SceneManager α) (l : RenderLocals α) :
    Except Fault (RenderLocals α) :=
  RenderScene.drawTextured ops s
    { l with scaleXYZ := ⟨8.0, 0.5, 3.0⟩, positionXYZ := ⟨0.0, -4.8, 3.0⟩ }
    "pckey" GL_TEXTURE1 "pcKey" "Box"

/-- Lines 596 to 605: the cup. -/
def RenderScene.cup (ops : MathOps α) (s : SceneManager α) (l : RenderLocals α) :
    Except Fault (RenderLocals α) :=
  RenderScene.drawTextured ops s
    { l with scaleXYZ := ⟨1.5, 3.0, 1.5⟩, positionXYZ := ⟨-16.0, -5.0, 4.0⟩ }
    "pencup" GL_TEXTURE1 "penCup" "Cylinder"

/-- Lines 607 to 616: the lamp base. -/
def RenderScene.lampBase (ops : MathOps α) (s : SceneManager α) (l : RenderLocals α) :
    Except Fault (RenderLocals α) :=
  RenderScene.drawTextured ops s
    { l with scaleXYZ := ⟨3.0, 1.0, 3.0⟩, positionXYZ := ⟨-15.0, -5.0, -2.0⟩ }
    "lampgold" GL_TEXTURE1 "lampGold" "Cylinder"

/-- Lines 618 to 627: the upper base. -/
def RenderScene.upperBase (ops : MathOps α) (s : SceneManager α) (l : RenderLocals α) :
    Except Fault (RenderLocals α) :=
  RenderScene.drawTextured ops s
    { l with scaleXYZ := ⟨-2.0, 0.5, 2.0⟩, positionXYZ := ⟨-15.0, -4.0, -2.0⟩ }
    "pencup" GL_TEXTURE1 "penCup" "Sphere"

/-- Lines 629 to 638: the lamp pole. -/
def RenderScene.lampPole (ops : MathOps α) (s : SceneManager α) (l : RenderLocals α) :
    Except Fault (RenderLocals α) :=
  RenderScene.drawTextured ops s
    { l with scaleXYZ := ⟨0.3, 7.0, 0.3⟩, positionXYZ := ⟨-15.0, -4.0, -2.0⟩ }
    "lampgold" GL_TEXTURE1 "lampGold" "Cylinder"

/-- Lines 640 to 656: the lamp head, and the reset of the rotations after it. -/
def RenderScene.lampHead (ops : MathOps α) (s : SceneManager α) (l : RenderLocals α) :
    Except Fault (RenderLocals α) :=
  match RenderScene.drawTextured ops s
      { l with
        scaleXYZ := ⟨1.5, 4.0, 1.5⟩, positionXYZ := ⟨-14.0, 2.0, 0.5⟩
        XrotationDegrees := -45.0, YrotationDegrees := 360.0, ZrotationDegrees := 25.0 }
      "lampgold" GL_TEXTURE "lampGold" "Cylinder" with
  | .error f => .error f
  | .ok l1 =>
    .ok { l1 with XrotationDegrees := 0.0, YrotationDegrees := 0.0, ZrotationDegrees := 0.0 }

/-- Lines 658 to 671: the donut, and the reset to non-textured mode after it. -/
def RenderScene.donut (ops : MathOps α) (s : SceneManager α) (l : RenderLocals α) :
    Except Fault (RenderLocals α) :=
  match RenderScene.drawTextured ops s
      { l with
        scaleXYZ := ⟨1.0, 1.0, 2.0⟩, positionXYZ := ⟨-8.0, -4.5, -1.0⟩
        XrotationDegrees := 90.0 }
      "donuttex" GL_TEXTURE "donutTex" "Torus" with
  | .error f => .error f
  | .ok l1 => .ok { l1 with calls := l1.calls ++ [.uniform "bUseTexture" (.int 0)] }

/-- Lines 673 to 678: the decorative top section. -/
def RenderScene.topSection (ops : MathOps α) (s : SceneManager α)
    (uninitialised : OBJECT_MATERIAL α) (l : RenderLocals α) : Except Fault (RenderLocals α) :=
  RenderScene.drawMaterial ops s uninitialised
    { l with scaleXYZ := ⟨0.5, 1.0, 0.5⟩, positionXYZ := ⟨-15.8, 5.5, -2.0⟩ }
    "lampKnob" "Sphere"

/-- Lines 680 to 691: the lamp bulb, the pencil height and the rotations set after it. -/
def RenderScene.lampBulb (ops : MathOps α) (s : SceneManager α) (l : RenderLocals α) :
    Except Fault (RenderLocals α) :=
  let l1 := { l with scaleXYZ := ⟨0.8, 0.8, 0.8⟩, positionXYZ := ⟨-14.0, 2.0, 0.5⟩ }
  let transform := SetTransformations ops s l1.scaleXYZ 0.0 0.0 0.0 l1.positionXYZ
  let shaderColor := SetShaderColor s 1.0 1.0 0.9 1.0
  .ok { l1 with
    calls := l1.calls ++ Call.uniforms transform ++ Call.uniforms shaderColor ++
      [.drawMesh "Sphere"]
    XrotationDegrees := 0.0, YrotationDegrees := 50.0, ZrotationDegrees := 10.0 }

/-- The local `pencilHeight` of `RenderScene`. -/
def RenderScene.pencilHeight : α := 3.5

/-- Lines 693 to 702: the first pencil, and the rotations set after it. -/
def RenderScene.pencil1 (ops : MathOps α) (s : SceneManager α)
    (uninitialised : OBJECT_MATERIAL α) (l : RenderLocals α) : Except Fault (RenderLocals α) :=
  match RenderScene.drawMaterial ops s uninitialised
      { l with
        scaleXYZ := ⟨0.2, RenderScene.pencilHeight, 0.2⟩, positionXYZ := ⟨-16.0, -3.5, 4.0⟩ }
      "pencil" "Cylinder" with
  | .error f => .error f
  | .ok l1 =>
    .ok { l1 with XrotationDegrees := 0.0, YrotationDegrees := 80.0, ZrotationDegrees := 10.0 }

/-- Lines 704 to 714: the second pencil, and the reset of the rotations after it. -/
def RenderScene.pencil2 (ops : MathOps α) (s : SceneManager α)
    (uninitialised : OBJECT_MATERIAL α) (l : RenderLocals α) : Except Fault (RenderLocals α) :=
  match RenderScene.drawMaterial ops s uninitialised
      { l with
        scaleXYZ := ⟨0.2, RenderScene.pencilHeight, 0.2⟩, positionXYZ := ⟨-16.0, -3.5, 4.0⟩
        XrotationDegrees := -15.0 }
      "pencil" "Cylinder" with
  | .error f => .error f
  | .ok l1 =>
    .ok { l1 with XrotationDegrees := 0.0, YrotationDegrees := 0.0, ZrotationDegrees := 0.0 }

/-- Lines 716 to 726: the third pencil, and the reset of the rotations after it. -/
def RenderScene.pencil3 (ops : MathOps α) (s : SceneManager α)
    (uninitialised : OBJECT_MATERIAL α) (l : RenderLocals α) : Except Fault (RenderLocals α) :=
  match RenderScene.drawMaterial ops s uninitialised
      { l with
        scaleXYZ := ⟨0.2, RenderScene.pencilHeight, 0.2⟩, positionXYZ := ⟨16.0, -4.8, 4.0⟩
        XrotationDegrees := -90.0 }
      "pencil" "Cylinder" with
  | .error f => .error f
  | .ok l1 =>
    .ok { l1 with XrotationDegrees := 0.0, YrotationDegrees := 0.0, ZrotationDegrees := 0.0 }

/-- Lines 728 to 733: the base of the monitor stand. -/
def RenderScene.monitorStandBase (ops : MathOps α) (s : SceneManager α)
    (uninitialised : OBJECT_MATERIAL α) (l : RenderLocals α) : Except Fault (RenderLocals α) :=
  RenderScene.drawMaterial ops s uninitialised
    { l with scaleXYZ := ⟨6.0, 1.0, 4.0⟩, positionXYZ := ⟨0.0, -4.5, -2.0⟩ }
    "monitorStand" "Box"

/-- Lines 735 to 740: the adjustable part of the monitor stand. -/
def RenderScene.monitorStandAdjust (ops : MathOps α) (s : SceneManager α)
    (uninitialised : OBJECT_MATERIAL α) (l : RenderLocals α) : Except Fault (RenderLocals α) :=
  RenderScene.drawMaterial ops s uninitialised
    { l with scaleXYZ := ⟨1.0, 6.0, 1.0⟩, positionXYZ := ⟨0.0, -2.5, -2.0⟩ }
    "monitor" "Box"

/-- Lines 742 to 747: the mouse. -/
def RenderScene.mouse (ops : MathOps α) (s : SceneManager α)
    (uninitialised : OBJECT_MATERIAL α) (l : RenderLocals α) : Except Fault (RenderLocals α) :=
  RenderScene.drawMaterial ops s uninitialised
    { l with scaleXYZ := ⟨1.0, 0.5, 1.0⟩, positionXYZ := ⟨6.0, -4.8, 3.2⟩ }
    "monitor" "Box"

/-- Lines 536 to 671 of `RenderScene`: the ten textured objects, up to and including
the reset to non-textured mode. -/
def RenderScene.textured (ops : MathOps α) (s : SceneManager α) :
    Except Fault (RenderLocals α) :=
  RenderScene.floorPlane ops s >>= RenderScene.book ops s >>= RenderScene.monitorScreen ops s
    >>= RenderScene.keyboard ops s >>= RenderScene.cup ops s >>= RenderScene.lampBase ops s
    >>= RenderScene.upperBase ops s >>= RenderScene.lampPole ops s
    >>= RenderScene.lampHead ops s >>= RenderScene.donut ops s

/-- `void SceneManager::RenderScene()`: the calls it makes, in order.  `uninitialised`
is the content of the local material of `SetShaderMaterial` before it is filled. -/
def RenderScene (ops : MathOps α) (s : SceneManager α) (uninitialised : OBJECT_MATERIAL α) :
    Except Fault (List (Call α)) :=
  (fun l => l.calls) <$>
    (RenderScene.textured ops s >>= RenderScene.topSection ops s uninitialised
      >>= RenderScene.lampBulb ops s >>= RenderScene.pencil1 ops s uninitialised
      >>= RenderScene.pencil2 ops s uninitialised >>= RenderScene.pencil3 ops s uninitialised
      >>= RenderScene.monitorStandBase ops s uninitialised
      >>= RenderScene.monitorStandAdjust ops s uninitialised
      >>= RenderScene.mouse ops s uninitialised)

end

/-! ## Sample view states -/

/-- A camera as `new Camera()` might create it: at the origin, looking down the
negative Z axis. -/
def sampleCamera : Camera ℚ :=
  { Position := ⟨0, 0, 0⟩, Front := ⟨0, 0, -1⟩, Up := ⟨0, 1, 0⟩, Yaw := -90, Pitch := 0,
    Zoom := 45, MovementSpeed := 5 / 2 }

/-- A camera class whose `ProcessMouseMovement` stores the offsets it is given in `Yaw`
and `Pitch`, and whose other members leave the camera alone. -/
def recordingCamera : CameraClass ℚ :=
  { ProcessKeyboard := fun c _ _ => c
    ProcessMouseMovement := fun c x y => { c with Yaw := x, Pitch := y }
    ProcessMouseScroll := fun c _ => c }

/-- A view state with a camera that has been moved and turned, in orthographic mode. -/
def sampleView : ViewManager ℚ :=
  { m_pShaderManager := true
    m_pWindow := true
    windowShouldClose := false
    g_pCamera := some
      { Position := ⟨3, 1, -4⟩, Front := ⟨1, 0, 0⟩, Up := ⟨0, 1, 0⟩, Yaw := 0, Pitch := 10,
        Zoom := 60, MovementSpeed := 5 / 2 }
    gLastX := 500
    gLastY := 400
    gFirstMouse := true
    gDeltaTime := 1 / 60
    gLastFrame := 2
    bOrthographicProjection := true }

/-! ## Sample scene -/

/-- The scene manager after `DefineObjectMaterials` and a `LoadSceneTextures` in which
all seven images load and OpenGL generates the texture names 1 to 7. -/
def loadedScene : SceneManager ℚ :=
  DefineObjectMaterials
    (registryOf [⟨"woodTexture", 1⟩, ⟨"backDrop", 2⟩, ⟨"monScreen", 3⟩, ⟨"pcKey", 4⟩,
      ⟨"penCup", 5⟩, ⟨"lampGold", 6⟩, ⟨"donutTex", 7⟩])

/-- A stand-in for the math library over the rational numbers, for evaluating calls
whose texture state does not depend on the value of the model matrix: the cosine and
sine are those of the angle 0 at every angle. -/
def sampleOps : MathOps ℚ :=
  { cos := fun _ => 1, sin := fun _ => 0, sqrt := fun x => x, pi := 3 }

/-! ## Texture lookup: the loops -/

theorem registered_eq_some {α : Type} {s : SceneManager α} {i : Int} {e : TEXTURE_INFO}
    (h : registered s i = some e) :
    0 ≤ i ∧ i < s.m_loadedTextures ∧ s.m_textureIDs[i.toNat]? = some e := by
  unfold registered at h
  split at h
  · rename_i hc
    exact ⟨hc.1, hc.2, h⟩
  · simp at h

theorem registered_of_lt {α : Type} {s : SceneManager α} {i : Int}
    (hlen : s.m_loadedTextures ≤ (s.m_textureIDs.length : Int))
    (h0 : 0 ≤ i) (h1 : i < s.m_loadedTextures) :
    ∃ e, registered s i = some e ∧ readSlot s.m_textureIDs i = .ok e := by
  have hlt : i.toNat < s.m_textureIDs.length := by omega
  refine ⟨s.m_textureIDs[i.toNat], ?_, ?_⟩
  · simp [registered, h0, h1, List.getElem?_eq_getElem hlt]
  · simp [readSlot, h0, List.getElem?_eq_getElem hlt]

theorem FindTextureSlot_loop_done {α : Type} (s : SceneManager α) (tag : String) (fuel : Nat)
    (st : FindTextureSlotLocals) (h : st.bFound = true) :
    FindTextureSlot.loop s tag fuel st = .ok st := by
  cases fuel <;> simp [FindTextureSlot.loop, h]

theorem FindTextureSlot_loop_hit {α : Type} (s : SceneManager α) (tag : String) (i : Int)
    (e : TEXTURE_INFO) (hreg : registered s i = some e) (htag : e.tag = tag)
    (hfirst : ∀ j e0, j < i → registered s j = some e0 → e0.tag ≠ tag)
    (hlen : s.m_loadedTextures ≤ (s.m_textureIDs.length : Int)) :
    ∀ (d : Nat) (k r : Int) (fuel : Nat), 0 ≤ k → k + d = i → d < fuel →
      FindTextureSlot.loop s tag fuel ⟨r, k, false⟩ = .ok ⟨i, i, true⟩ := by
  obtain ⟨hi0, hi1, _⟩ := registered_eq_some hreg
  intro d
  induction d with
  | zero =>
    intro k r fuel hk hki hf
    obtain ⟨f, rfl⟩ : ∃ f, fuel = f + 1 := ⟨fuel - 1, by omega⟩
    have hki2 : k = i := by simpa using hki
    subst hki2
    obtain ⟨e1, h1, h2⟩ := registered_of_lt hlen hi0 hi1
    have : e1 = e := by rw [hreg] at h1; exact (Option.some.inj h1).symm
    subst this
    simp [FindTextureSlot.loop, hi1, h2, htag, FindTextureSlot_loop_done]
  | succ d ih =>
    intro k r fuel hk hki hf
    obtain ⟨f, rfl⟩ : ∃ f, fuel = f + 1 := ⟨fuel - 1, by omega⟩
    have hk1 : k < s.m_loadedTextures := by push_cast at hki; omega
    obtain ⟨e1, h1, h2⟩ := registered_of_lt hlen hk hk1
    have hne : e1.tag ≠ tag := hfirst k e1 (by push_cast at hki; omega) h1
    simp only [FindTextureSlot.loop, hk1, h2, hne, and_self, if_true, if_false]
    exact ih (k + 1) r f (by omega) (by push_cast at hki ⊢; omega) (by omega)

theorem FindTextureSlot_loop_miss {α : Type} (s : SceneManager α) (tag : String)
    (hnone : ∀ j e0, registered s j = some e0 → e0.tag ≠ tag)
    (hlen : s.m_loadedTextures ≤ (s.m_textureIDs.length : Int)) :
    ∀ (d : Nat) (k r : Int) (fuel : Nat), 0 ≤ k → k + d = s.m_loadedTextures → d ≤ fuel →
      FindTextureSlot.loop s tag fuel ⟨r, k, false⟩ = .ok ⟨r, s.m_loadedTextures, false⟩ := by
  intro d
  induction d with
  | zero =>
    intro k r fuel hk hki hf
    have hki2 : k = s.m_loadedTextures := by simpa using hki
    cases fuel <;> simp [FindTextureSlot.loop, hki2]
  | succ d ih =>
    intro k r fuel hk hki hf
    obtain ⟨f, rfl⟩ : ∃ f, fuel = f + 1 := ⟨fuel - 1, by omega⟩
    have hk1 : k < s.m_loadedTextures := by push_cast at hki; omega
    obtain ⟨e1, h1, h2⟩ := registered_of_lt hlen hk hk1
    have hne : e1.tag ≠ tag := hnone k e1 h1
    simp only [FindTextureSlot.loop, hk1, h2, hne, and_self, if_true, if_false]
    exact ih (k + 1) r f (by omega) (by push_cast at hki ⊢; omega) (by omega)

theorem FindTextureID_loop_done {α : Type} (s : SceneManager α) (tag : String) (fuel : Nat)
    (st : FindTextureIDLocals) (h : st.bFound = true) :
    FindTextureID.loop s tag fuel st = .ok st := by
  cases fuel <;> simp [FindTextureID.loop, h]

theorem FindTextureID_loop_hit {α : Type} (s : SceneManager α) (tag : String) (i : Int)
    (e : TEXTURE_INFO) (hreg : registered s i = some e) (htag : e.tag = tag)
    (hfirst : ∀ j e0, j < i → registered s j = some e0 → e0.tag ≠ tag)
    (hlen : s.m_loadedTextures ≤ (s.m_textureIDs.length : Int)) :
    ∀ (d : Nat) (k r : Int) (fuel : Nat), 0 ≤ k → k + d = i → d < fuel →
      FindTextureID.loop s tag fuel ⟨r, k, false⟩ = .ok ⟨toInt e.ID, i, true⟩ := by
  obtain ⟨hi0, hi1, _⟩ := registered_eq_some hreg
  intro d
  induction d with
  | zero =>
    intro k r fuel hk hki hf
    obtain ⟨f, rfl⟩ : ∃ f, fuel = f + 1 := ⟨fuel - 1, by omega⟩
    have hki2 : k = i := by simpa using hki
    subst hki2
    obtain ⟨e1, h1, h2⟩ := registered_of_lt hlen hi0 hi1
    have : e1 = e := by rw [hreg] at h1; exact (Option.some.inj h1).symm
    subst this
    simp [FindTextureID.loop, hi1, h2, htag, FindTextureID_loop_done]
  | succ d ih =>
    intro k r fuel hk hki hf
    obtain ⟨f, rfl⟩ : ∃ f, fuel = f + 1 := ⟨fuel - 1, by omega⟩
    have hk1 : k < s.m_loadedTextures := by push_cast at hki; omega
    obtain ⟨e1, h1, h2⟩ := registered_of_lt hlen hk hk1
    have hne : e1.tag ≠ tag := hfirst k e1 (by push_cast at hki; omega) h1
    simp only [FindTextureID.loop, hk1, h2, hne, and_self, if_true, if_false]
    exact ih (k + 1) r f (by omega) (by push_cast at hki ⊢; omega) (by omega)

theorem FindTextureID_loop_miss {α : Type} (s : SceneManager α) (tag : String)
    (hnone : ∀ j e0, registered s j = some e0 → e0.tag ≠ tag)
    (hlen : s.m_loadedTextures ≤ (s.m_textureIDs.length : Int)) :
    ∀ (d : Nat) (k r : Int) (fuel : Nat), 0 ≤ k → k + d = s.m_loadedTextures → d ≤ fuel →
      FindTextureID.loop s tag fuel ⟨r, k, false⟩ = .ok ⟨r, s.m_loadedTextures, false⟩ := by
  intro d
  induction d with
  | zero =>
    intro k r fuel hk hki hf
    have hki2 : k = s.m_loadedTextures := by simpa using hki
    cases fuel <;> simp [FindTextureID.loop, hki2]
  | succ d ih =>
    intro k r fuel hk hki hf
    obtain ⟨f, rfl⟩ : ∃ f, fuel = f + 1 := ⟨fuel - 1, by omega⟩
    have hk1 : k < s.m_loadedTextures := by push_cast at hki; omega
    obtain ⟨e1, h1, h2⟩ := registered_of_lt hlen hk hk1
    have hne : e1.tag ≠ tag := hnone k e1 h1
    simp only [FindTextureID.loop, hk1, h2, hne, and_self, if_true, if_false]
    exact ih (k + 1) r f (by omega) (by push_cast at hki ⊢; omega) (by omega)

/-! ## Texture lookup: the functions -/

theorem toGLuint_toInt (u : Nat) (h : u < 4294967296) : toGLuint (toInt u) = u := by
  unfold toGLuint toInt
  split <;> omega

theorem toInt_eq_neg_one_iff (u : Nat) (h : u < 4294967296) :
    toInt u = -1 ↔ u = 4294967295 := by
  unfold toInt
  split <;> omega

theorem toInt_of_lt (u : Nat) (h : u < 2147483648) : toInt u = (u : Int) := by
  unfold toInt
  split <;> omega

theorem WellFormed.count_le {α : Type} {s : SceneManager α} (h : WellFormed s) :
    s.m_loadedTextures ≤ (s.m_textureIDs.length : Int) := by
  obtain ⟨h1, _, h3, _⟩ := h
  rw [h1]; exact h3

theorem FindTextureSlot_first {α : Type} (s : SceneManager α) (tag : String) (i : Int)
    (e : TEXTURE_INFO) (hlen : s.m_loadedTextures ≤ (s.m_textureIDs.length : Int))
    (hreg : registered s i = some e) (htag : e.tag = tag)
    (hfirst : ∀ j e0, j < i → registered s j = some e0 → e0.tag ≠ tag) :
    FindTextureSlot s tag = .ok i := by
  obtain ⟨hi0, hi1, _⟩ := registered_eq_some hreg
  have h := FindTextureSlot_loop_hit s tag i e hreg htag hfirst hlen i.toNat 0 (-1)
    s.m_loadedTextures.toNat (le_refl 0) (by omega) (by omega)
  simp [FindTextureSlot, h]

theorem FindTextureID_first {α : Type} (s : SceneManager α) (tag : String) (i : Int)
    (e : TEXTURE_INFO) (hlen : s.m_loadedTextures ≤ (s.m_textureIDs.length : Int))
    (hreg : registered s i = some e) (htag : e.tag = tag)
    (hfirst : ∀ j e0, j < i → registered s j = some e0 → e0.tag ≠ tag) :
    FindTextureID s tag = .ok (toInt e.ID) := by
  obtain ⟨hi0, hi1, _⟩ := registered_eq_some hreg
  have h := FindTextureID_loop_hit s tag i e hreg htag hfirst hlen i.toNat 0 (-1)
    s.m_loadedTextures.toNat (le_refl 0) (by omega) (by omega)
  simp [FindTextureID, h]

theorem FindTextureSlot_miss {α : Type} (s : SceneManager α) (tag : String)
    (hlen : s.m_loadedTextures ≤ (s.m_textureIDs.length : Int))
    (hnone : ∀ j e0, registered s j = some e0 → e0.tag ≠ tag) :
    FindTextureSlot s tag = .ok (-1) := by
  by_cases h0 : 0 ≤ s.m_loadedTextures
  · have h := FindTextureSlot_loop_miss s tag hnone hlen s.m_loadedTextures.toNat 0 (-1)
      s.m_loadedTextures.toNat (le_refl 0) (by omega) (le_refl _)
    simp [FindTextureSlot, h]
  · have hz : s.m_loadedTextures.toNat = 0 := by omega
    have hn : ¬ (0 : Int) < s.m_loadedTextures := by omega
    simp [FindTextureSlot, hz, FindTextureSlot.loop, hn]

theorem FindTextureID_miss {α : Type} (s : SceneManager α) (tag : String)
    (hlen : s.m_loadedTextures ≤ (s.m_textureIDs.length : Int))
    (hnone : ∀ j e0, registered s j = some e0 → e0.tag ≠ tag) :
    FindTextureID s tag = .ok (-1) := by
  by_cases h0 : 0 ≤ s.m_loadedTextures
  · have h := FindTextureID_loop_miss s tag hnone hlen s.m_loadedTextures.toNat 0 (-1)
      s.m_loadedTextures.toNat (le_refl 0) (by omega) (le_refl _)
    simp [FindTextureID, h]
  · have hz : s.m_loadedTextures.toNat = 0 := by omega
    have hn : ¬ (0 : Int) < s.m_loadedTextures := by omega
    simp [FindTextureID, hz, FindTextureID.loop, hn]

theorem exists_first_registered {α : Type} (s : SceneManager α) (tag : String)
    (h : ∃ i e, registered s i = some e ∧ e.tag = tag) :
    ∃ i e, registered s i = some e ∧ e.tag = tag ∧
      ∀ j e0, j < i → registered s j = some e0 → e0.tag ≠ tag := by
  classical
  have hP : ∃ n : Nat, ∃ e, registered s (n : Int) = some e ∧ e.tag = tag := by
    obtain ⟨i, e, h1, h2⟩ := h
    obtain ⟨hi0, _, _⟩ := registered_eq_some h1
    exact ⟨i.toNat, e, by rwa [Int.toNat_of_nonneg hi0], h2⟩
  obtain ⟨e, he1, he2⟩ := Nat.find_spec hP
  refine ⟨(Nat.find hP : Nat), e, he1, he2, ?_⟩
  intro j e0 hj hreg htag
  obtain ⟨hj0, _, _⟩ := registered_eq_some hreg
  have hlt : j.toNat < Nat.find hP := by omega
  exact Nat.find_min hP hlt ⟨e0, by rwa [Int.toNat_of_nonneg hj0], htag⟩

/-! ## Registration -/

theorem writeSlot_ok (arr : List TEXTURE_INFO) (index : Int) (f : TEXTURE_INFO → TEXTURE_INFO)
    (h0 : 0 ≤ index) (h1 : index.toNat < arr.length) :
    writeSlot arr index f = .ok (arr.set index.toNat (f arr[index.toNat])) := by
  simp [writeSlot, h0, List.getElem?_eq_getElem h1]

theorem writeSlot_error (arr : List TEXTURE_INFO) (index : Int) (f : TEXTURE_INFO → TEXTURE_INFO)
    (h : index < 0 ∨ arr.length ≤ index.toNat) :
    writeSlot arr index f = .error .outOfBounds := by
  unfold writeSlot
  split
  · have h2 : arr.length ≤ index.toNat := by omega
    simp [List.getElem?_eq_none h2]
  · rfl

/-- The state in which a successful `CreateGLTexture` leaves the scene manager. -/
theorem CreateGLTexture_registers {α : Type} (stbi_load : String → Option STBI_IMAGE)
    (glGenTextures : Nat) (s : SceneManager α) (filename tag : String) (image : STBI_IMAGE)
    (hload : stbi_load filename = some image)
    (hch : image.colorChannels = 3 ∨ image.colorChannels = 4)
    (h0 : 0 ≤ s.m_loadedTextures) (h1 : s.m_loadedTextures < (s.m_textureIDs.length : Int)) :
    CreateGLTexture stbi_load glGenTextures s filename tag =
      .ok (true, { s with
        m_textureIDs := s.m_textureIDs.set s.m_loadedTextures.toNat ⟨tag, glGenTextures⟩
        m_loadedTextures := s.m_loadedTextures + 1 }) := by
  have hlt : s.m_loadedTextures.toNat < s.m_textureIDs.length := by omega
  have hw1 := writeSlot_ok s.m_textureIDs s.m_loadedTextures
    (fun e => { e with ID := glGenTextures }) h0 hlt
  have hlt2 : s.m_loadedTextures.toNat <
      (s.m_textureIDs.set s.m_loadedTextures.toNat
        ((fun e => { e with ID := glGenTextures }) s.m_textureIDs[s.m_loadedTextures.toNat])).length := by
    simpa using hlt
  have hw2 := writeSlot_ok _ s.m_loadedTextures (fun e => { e with tag := tag }) h0 hlt2
  unfold CreateGLTexture
  rw [hload]
  simp only [hw1, hw2]
  rcases hch with h | h <;> simp [h, List.set_set]

/-- The outcomes of `CreateGLTexture`. -/
theorem CreateGLTexture_ok {α : Type} (stbi_load : String → Option STBI_IMAGE)
    (glGenTextures : Nat) (s : SceneManager α) (filename tag : String) (b : Bool)
    (s1 : SceneManager α)
    (h : CreateGLTexture stbi_load glGenTextures s filename tag = .ok (b, s1)) :
    (b = false ∧ s1 = s) ∨
    (b = true ∧ 0 ≤ s.m_loadedTextures ∧ s.m_loadedTextures < (s.m_textureIDs.length : Int) ∧
      s1 = { s with
        m_textureIDs := s.m_textureIDs.set s.m_loadedTextures.toNat ⟨tag, glGenTextures⟩
        m_loadedTextures := s.m_loadedTextures + 1 }) := by
  cases hload : stbi_load filename with
  | none =>
    simp [CreateGLTexture, hload] at h
    exact Or.inl ⟨h.1, h.2.symm⟩
  | some image =>
    by_cases hch : image.colorChannels = 3 ∨ image.colorChannels = 4
    · by_cases hb : 0 ≤ s.m_loadedTextures ∧ s.m_loadedTextures < (s.m_textureIDs.length : Int)
      · rw [CreateGLTexture_registers stbi_load glGenTextures s filename tag image hload hch
          hb.1 hb.2] at h
        simp at h
        exact Or.inr ⟨h.1, hb.1, hb.2, h.2.symm⟩
      · have hw := writeSlot_error s.m_textureIDs s.m_loadedTextures
          (fun e => { e with ID := glGenTextures }) (by omega)
        unfold CreateGLTexture at h
        rw [hload] at h
        simp only [hw] at h
        rcases hch with h3 | h4
        · simp [h3] at h
        · simp [h4] at h
    · have h3 : image.colorChannels ≠ 3 := fun h => hch (Or.inl h)
      have h4 : image.colorChannels ≠ 4 := fun h => hch (Or.inr h)
      simp [CreateGLTexture, hload, h3, h4] at h
      exact Or.inl ⟨h.1, h.2.symm⟩

/-! ## Registry and registered entries -/

theorem registered_eq {α : Type} (s : SceneManager α) (i : Int) :
    registered s i = if 0 ≤ i then (registry s)[i.toNat]? else none := by
  unfold registered registry
  by_cases h0 : 0 ≤ i
  · by_cases h1 : i < s.m_loadedTextures
    · have : i.toNat < s.m_loadedTextures.toNat := by omega
      simp [h0, h1, List.getElem?_take, this]
    · have : ¬ i.toNat < s.m_loadedTextures.toNat := by omega
      simp [h0, h1, List.getElem?_take, this]
  · simp [h0]

theorem registered_natCast {α : Type} (s : SceneManager α) (n : Nat) :
    registered s (n : Int) = (registry s)[n]? := by
  simp [registered_eq]

theorem registered_of_some {α : Type} {s : SceneManager α} {i : Int} {e : TEXTURE_INFO}
    (h : registered s i = some e) : (registry s)[i.toNat]? = some e := by
  obtain ⟨h0, _, _⟩ := registered_eq_some h
  rw [registered_eq, if_pos h0] at h
  exact h

theorem first_of_take {α : Type} (s : SceneManager α) (tag : String) (i : Nat)
    (h : ∀ e0 ∈ (registry s).take i, e0.tag ≠ tag) :
    ∀ (j : Int) (e0 : TEXTURE_INFO), j < (i : Int) → registered s j = some e0 → e0.tag ≠ tag := by
  intro j e0 hj hreg
  obtain ⟨h0, _, _⟩ := registered_eq_some hreg
  have h1 := registered_of_some hreg
  apply h e0
  rw [List.mem_iff_getElem?]
  refine ⟨j.toNat, ?_⟩
  have : j.toNat < i := by omega
  simp [List.getElem?_take, this, h1]

theorem none_of_registry {α : Type} (s : SceneManager α) (tag : String)
    (h : ∀ e0 ∈ registry s, e0.tag ≠ tag) :
    ∀ (j : Int) (e0 : TEXTURE_INFO), registered s j = some e0 → e0.tag ≠ tag := by
  intro j e0 hreg
  exact h e0 (List.getElem?_mem (registered_of_some hreg))

/-! ## Claims on the texture registry -/

/-- C1, counterexample: in a well-formed registry whose only entry is registered under
"woodTexture" with the handle 4294967295 (the largest `GLuint`), `FindTextureSlot` finds
slot 0 but `FindTextureID` returns -1, the not-found sentinel. -/
theorem C1_handle_collides_with_sentinel :
    WellFormed (registryOf [⟨"woodTexture", 4294967295⟩]) ∧
    (∃ e ∈ registry (registryOf [⟨"woodTexture", 4294967295⟩]), e.tag = "woodTexture") ∧
    FindTextureSlot (registryOf [⟨"woodTexture", 4294967295⟩]) "woodTexture" = .ok 0 ∧
    FindTextureID (registryOf [⟨"woodTexture", 4294967295⟩]) "woodTexture" = .ok (-1) := by
  decide

/-- C1, amended: for every well-formed registry and every tag carried by a registered
entry, `FindTextureSlot` returns an index `i` with `0 ≤ i < m_loadedTextures` whose entry
`e` has that tag, and `FindTextureID` returns the handle of that same entry converted to
`int`, from which the handle is recovered.  The slot is never -1; the returned handle is
-1 exactly when the stored handle is 4294967295, and it equals the stored handle whenever
that is below 2147483648. -/
theorem C1_lookup_registered {α : Type} (s : SceneManager α) (tag : String)
    (hwf : WellFormed s) (hmem : ∃ e ∈ registry s, e.tag = tag) :
    ∃ (i : Int) (e : TEXTURE_INFO),
      FindTextureSlot s tag = .ok i ∧ 0 ≤ i ∧ i < s.m_loadedTextures ∧
      (registry s)[i.toNat]? = some e ∧ e.tag = tag ∧
      FindTextureID s tag = .ok (toInt e.ID) ∧ toGLuint (toInt e.ID) = e.ID ∧
      i ≠ -1 ∧ (toInt e.ID = -1 ↔ e.ID = 4294967295) ∧
      (e.ID < 2147483648 → toInt e.ID = (e.ID : Int)) := by
  have hlen := hwf.count_le
  have hex : ∃ i e, registered s i = some e ∧ e.tag = tag := by
    obtain ⟨e, he, ht⟩ := hmem
    obtain ⟨n, hn⟩ := List.mem_iff_getElem?.mp he
    exact ⟨(n : Int), e, by rw [registered_natCast]; exact hn, ht⟩
  obtain ⟨i, e, hreg, htag, hfirst⟩ := exists_first_registered s tag hex
  obtain ⟨hi0, hi1, hget⟩ := registered_eq_some hreg
  have hid : e.ID < 4294967296 := hwf.2.2.2 e (List.getElem?_mem hget)
  exact ⟨i, e, FindTextureSlot_first s tag i e hlen hreg htag hfirst, hi0, hi1,
    registered_of_some hreg, htag, FindTextureID_first s tag i e hlen hreg htag hfirst,
    toGLuint_toInt e.ID hid, by omega, toInt_eq_neg_one_iff e.ID hid, toInt_of_lt e.ID⟩

/-- C1, amended, at a concrete registry: "backDrop" is the second of three entries. -/
theorem C1_lookup_registered_witness :
    ∃ (i : Int) (e : TEXTURE_INFO),
      FindTextureSlot (registryOf [⟨"woodTexture", 1⟩, ⟨"backDrop", 2⟩, ⟨"monScreen", 3⟩])
        "backDrop" = .ok i ∧ 0 ≤ i ∧
      i < (registryOf [⟨"woodTexture", 1⟩, ⟨"backDrop", 2⟩, ⟨"monScreen", 3⟩]).m_loadedTextures ∧
      (registry (registryOf [⟨"woodTexture", 1⟩, ⟨"backDrop", 2⟩, ⟨"monScreen", 3⟩]))[i.toNat]?
        = some e ∧ e.tag = "backDrop" ∧
      FindTextureID (registryOf [⟨"woodTexture", 1⟩, ⟨"backDrop", 2⟩, ⟨"monScreen", 3⟩])
        "backDrop" = .ok (toInt e.ID) ∧ toGLuint (toInt e.ID) = e.ID ∧
      i ≠ -1 ∧ (toInt e.ID = -1 ↔ e.ID = 4294967295) ∧
      (e.ID < 2147483648 → toInt e.ID = (e.ID : Int)) :=
  C1_lookup_registered (registryOf [⟨"woodTexture", 1⟩, ⟨"backDrop", 2⟩, ⟨"monScreen", 3⟩])
    "backDrop" (by decide) (by decide)

/-- C2: for every well-formed registry, the empty one included, and every tag that
differs from the tag of every registered entry, `FindTextureID` and `FindTextureSlot`
both return the not-found sentinel -1. -/
theorem C2_lookup_unregistered {α : Type} (s : SceneManager α) (tag : String)
    (hwf : WellFormed s) (hnone : ∀ e ∈ registry s, e.tag ≠ tag) :
    FindTextureID s tag = .ok (-1) ∧ FindTextureSlot s tag = .ok (-1) :=
  ⟨FindTextureID_miss s tag hwf.count_le (none_of_registry s tag hnone),
   FindTextureSlot_miss s tag hwf.count_le (none_of_registry s tag hnone)⟩

/-- C2 at a concrete registry: "monscreen" is not among the registered tags. -/
theorem C2_lookup_unregistered_witness :
    FindTextureID (registryOf [⟨"woodTexture", 1⟩, ⟨"monScreen", 3⟩]) "monscreen" = .ok (-1) ∧
    FindTextureSlot (registryOf [⟨"woodTexture", 1⟩, ⟨"monScreen", 3⟩]) "monscreen" = .ok (-1) :=
  C2_lookup_unregistered (registryOf [⟨"woodTexture", 1⟩, ⟨"monScreen", 3⟩]) "monscreen"
    (by decide) (by decide)

/-! ## Registration and the registry -/

theorem registry_after_register {α : Type} (s : SceneManager α) (entry : TEXTURE_INFO)
    (h0 : 0 ≤ s.m_loadedTextures) (h1 : s.m_loadedTextures < (s.m_textureIDs.length : Int)) :
    registry { s with
        m_textureIDs := s.m_textureIDs.set s.m_loadedTextures.toNat entry
        m_loadedTextures := s.m_loadedTextures + 1 } = registry s ++ [entry] := by
  have hn : (s.m_loadedTextures + 1).toNat = s.m_loadedTextures.toNat + 1 := by omega
  have hlt : s.m_loadedTextures.toNat < s.m_textureIDs.length := by omega
  unfold registry
  simp only [hn]
  apply List.ext_getElem?
  intro k
  rcases Nat.lt_trichotomy k s.m_loadedTextures.toNat with hk | hk | hk
  · have hk2 : k < s.m_loadedTextures.toNat + 1 := by omega
    have hk3 : k < (List.take s.m_loadedTextures.toNat s.m_textureIDs).length := by
      simp; omega
    have hne : s.m_loadedTextures.toNat ≠ k := by omega
    rw [List.getElem?_append_left hk3]
    simp [List.getElem?_take, hk, hk2, List.getElem?_set_ne hne]
  · subst hk
    have hk3 : (List.take s.m_loadedTextures.toNat s.m_textureIDs).length ≤
        s.m_loadedTextures.toNat := by simp
    rw [List.getElem?_append_right hk3]
    have hlen : (List.take s.m_loadedTextures.toNat s.m_textureIDs).length =
        s.m_loadedTextures.toNat := by simp; omega
    simp [List.getElem?_take, hlen, List.getElem?_set_self hlt]
  · have hk2 : ¬ k < s.m_loadedTextures.toNat + 1 := by omega
    have hlen : (List.take s.m_loadedTextures.toNat s.m_textureIDs).length =
        s.m_loadedTextures.toNat := by simp; omega
    have hk3 : (List.take s.m_loadedTextures.toNat s.m_textureIDs).length ≤ k := by omega
    rw [List.getElem?_append_right hk3, hlen]
    have hk4 : k - s.m_loadedTextures.toNat ≠ 0 := by omega
    obtain ⟨m, hm⟩ : ∃ m, k - s.m_loadedTextures.toNat = m + 1 :=
      ⟨k - s.m_loadedTextures.toNat - 1, by omega⟩
    simp [List.getElem?_take, hk2, hm]

theorem registry_length {α : Type} (s : SceneManager α) (h0 : 0 ≤ s.m_loadedTextures)
    (h1 : s.m_loadedTextures ≤ (s.m_textureIDs.length : Int)) :
    ((registry s).length : Int) = s.m_loadedTextures := by
  unfold registry
  simp
  omega

/-- C3: when the first entry registered under tag `T` is entry `i` (no earlier entry
carries `T`, later ones may), `FindTextureSlot T` returns `i`, the smallest index whose
entry has tag `T`, and `FindTextureID T` returns the handle of that entry (as `int`,
from which the handle is recovered).  Whatever a further `CreateGLTexture` under `T`
returns, both lookups for `T` give the same results afterwards, and while the registry
has a free slot that call does return. -/
theorem C3_first_registered_wins {α : Type} (s : SceneManager α) (T : String) (i : Nat)
    (e : TEXTURE_INFO) (hwf : WellFormed s) (hget : (registry s)[i]? = some e)
    (htag : e.tag = T) (hfirst : ∀ e0 ∈ (registry s).take i, e0.tag ≠ T) :
    FindTextureSlot s T = .ok (i : Int) ∧
    FindTextureID s T = .ok (toInt e.ID) ∧ toGLuint (toInt e.ID) = e.ID ∧
    (∀ (stbi_load : String → Option STBI_IMAGE) (glGenTextures : Nat) (filename : String)
        (b : Bool) (s1 : SceneManager α),
        CreateGLTexture stbi_load glGenTextures s filename T = .ok (b, s1) →
        FindTextureSlot s1 T = .ok (i : Int) ∧ FindTextureID s1 T = .ok (toInt e.ID)) ∧
    (s.m_loadedTextures < (MAX_TEXTURES : Int) →
      ∀ (stbi_load : String → Option STBI_IMAGE) (glGenTextures : Nat) (filename : String),
        ∃ (b : Bool) (s1 : SceneManager α),
          CreateGLTexture stbi_load glGenTextures s filename T = .ok (b, s1)) := by
  have hlen := hwf.count_le
  have hreg : registered s (i : Int) = some e := by rw [registered_natCast]; exact hget
  have hf := first_of_take s T i hfirst
  obtain ⟨_, _, hget2⟩ := registered_eq_some hreg
  have hid : e.ID < 4294967296 := hwf.2.2.2 e (List.getElem?_mem hget2)
  refine ⟨FindTextureSlot_first s T i e hlen hreg htag hf,
    FindTextureID_first s T i e hlen hreg htag hf, toGLuint_toInt e.ID hid, ?_, ?_⟩
  · intro stbi_load glGenTextures filename b s1 hcall
    rcases CreateGLTexture_ok stbi_load glGenTextures s filename T b s1 hcall with
      ⟨_, hs⟩ | ⟨_, h0, h1, hs⟩
    · rw [hs]
      exact ⟨FindTextureSlot_first s T i e hlen hreg htag hf,
        FindTextureID_first s T i e hlen hreg htag hf⟩
    · have hr := registry_after_register s ⟨T, glGenTextures⟩ h0 h1
      rw [← hs] at hr
      have hilt : i < (registry s).length := by
        rcases List.getElem?_eq_some.mp hget with ⟨h, _⟩
        exact h
      have hget1 : (registry s1)[i]? = some e := by
        rw [hr, List.getElem?_append_left hilt]; exact hget
      have hfirst1 : ∀ e0 ∈ (registry s1).take i, e0.tag ≠ T := by
        rw [hr, List.take_append_of_le_length (Nat.le_of_lt hilt)]
        exact hfirst
      have hlen1 : s1.m_loadedTextures ≤ (s1.m_textureIDs.length : Int) := by
        rw [hs]; simp; omega
      have hreg1 : registered s1 (i : Int) = some e := by
        rw [registered_natCast]; exact hget1
      have hf1 := first_of_take s1 T i hfirst1
      exact ⟨FindTextureSlot_first s1 T i e hlen1 hreg1 htag hf1,
        FindTextureID_first s1 T i e hlen1 hreg1 htag hf1⟩
  · intro hroom stbi_load glGenTextures filename
    have h1 : s.m_loadedTextures < (s.m_textureIDs.length : Int) := by
      rw [hwf.1]; exact hroom
    cases hload : stbi_load filename with
    | none => exact ⟨false, s, by simp [CreateGLTexture, hload]⟩
    | some image =>
      by_cases hch : image.colorChannels = 3 ∨ image.colorChannels = 4
      · exact ⟨true, _, CreateGLTexture_registers stbi_load glGenTextures s filename T image
          hload hch hwf.2.1 h1⟩
      · have h3 : image.colorChannels ≠ 3 := fun h => hch (Or.inl h)
        have h4 : image.colorChannels ≠ 4 := fun h => hch (Or.inr h)
        exact ⟨false, s, by simp [CreateGLTexture, hload, h3, h4]⟩

/-- C3 at a concrete registry: "lampGold" is registered at slots 1 and 2 with handles 7
and 9; the lookups give slot 1 and handle 7, also after a third registration. -/
theorem C3_first_registered_wins_witness :
    FindTextureSlot (registryOf [⟨"penCup", 5⟩, ⟨"lampGold", 7⟩, ⟨"lampGold", 9⟩]) "lampGold"
      = .ok ((1 : Nat) : Int) ∧
    FindTextureID (registryOf [⟨"penCup", 5⟩, ⟨"lampGold", 7⟩, ⟨"lampGold", 9⟩]) "lampGold"
      = .ok (toInt (TEXTURE_INFO.mk "lampGold" 7).ID) ∧
    toGLuint (toInt (TEXTURE_INFO.mk "lampGold" 7).ID) = (TEXTURE_INFO.mk "lampGold" 7).ID ∧
    (∀ (stbi_load : String → Option STBI_IMAGE) (glGenTextures : Nat) (filename : String)
        (b : Bool) (s1 : SceneManager ℚ),
        CreateGLTexture stbi_load glGenTextures
          (registryOf [⟨"penCup", 5⟩, ⟨"lampGold", 7⟩, ⟨"lampGold", 9⟩]) filename "lampGold"
          = .ok (b, s1) →
        FindTextureSlot s1 "lampGold" = .ok ((1 : Nat) : Int) ∧
        FindTextureID s1 "lampGold" = .ok (toInt (TEXTURE_INFO.mk "lampGold" 7).ID)) ∧
    ((registryOf [⟨"penCup", 5⟩, ⟨"lampGold", 7⟩, ⟨"lampGold", 9⟩]).m_loadedTextures
        < (MAX_TEXTURES : Int) →
      ∀ (stbi_load : String → Option STBI_IMAGE) (glGenTextures : Nat) (filename : String),
        ∃ (b : Bool) (s1 : SceneManager ℚ),
          CreateGLTexture stbi_load glGenTextures
            (registryOf [⟨"penCup", 5⟩, ⟨"lampGold", 7⟩, ⟨"lampGold", 9⟩]) filename "lampGold"
            = .ok (b, s1)) :=
  C3_first_registered_wins (registryOf [⟨"penCup", 5⟩, ⟨"lampGold", 7⟩, ⟨"lampGold", 9⟩])
    "lampGold" 1 ⟨"lampGold", 7⟩ (by decide) (by decide) (by decide) (by decide)

/-- C4: every failing texture load leaves the scene manager as it was.  If the image
decode fails, or succeeds with a channel count other than 3 or 4, `CreateGLTexture`
returns false and the state after the call, and with it `m_loadedTextures` and every
registered entry, equals the state before it. -/
theorem C4_failed_load_keeps_registry {α : Type} (stbi_load : String → Option STBI_IMAGE)
    (glGenTextures : Nat) (s : SceneManager α) (filename tag : String)
    (hfail : stbi_load filename = none ∨
      ∃ image, stbi_load filename = some image ∧
        image.colorChannels ≠ 3 ∧ image.colorChannels ≠ 4) :
    CreateGLTexture stbi_load glGenTextures s filename tag = .ok (false, s) ∧
    ∀ (b : Bool) (s1 : SceneManager α),
      CreateGLTexture stbi_load glGenTextures s filename tag = .ok (b, s1) →
      b = false ∧ s1.m_loadedTextures = s.m_loadedTextures ∧ registry s1 = registry s := by
  have hmain : CreateGLTexture stbi_load glGenTextures s filename tag = .ok (false, s) := by
    rcases hfail with hnone | ⟨image, hsome, h3, h4⟩
    · simp [CreateGLTexture, hnone]
    · simp [CreateGLTexture, hsome, h3, h4]
  refine ⟨hmain, ?_⟩
  intro b s1 hcall
  rw [hmain] at hcall
  simp at hcall
  obtain ⟨hb, hs⟩ := hcall
  subst hb; subst hs
  exact ⟨rfl, rfl, rfl⟩

/-- C4 at a concrete input: a two-channel image offered to a registry of two textures. -/
theorem C4_failed_load_keeps_registry_witness :
    CreateGLTexture (decodeAs (some 2)) 8 (registryOf [⟨"woodTexture", 1⟩, ⟨"backDrop", 2⟩])
      "grey.png" "pcKey" = .ok (false, registryOf [⟨"woodTexture", 1⟩, ⟨"backDrop", 2⟩]) ∧
    ∀ (b : Bool) (s1 : SceneManager ℚ),
      CreateGLTexture (decodeAs (some 2)) 8 (registryOf [⟨"woodTexture", 1⟩, ⟨"backDrop", 2⟩])
        "grey.png" "pcKey" = .ok (b, s1) →
      b = false ∧
      s1.m_loadedTextures = (registryOf [⟨"woodTexture", 1⟩, ⟨"backDrop", 2⟩]).m_loadedTextures ∧
      registry s1 = registry (registryOf [⟨"woodTexture", 1⟩, ⟨"backDrop", 2⟩]) :=
  C4_failed_load_keeps_registry (decodeAs (some 2)) 8
    (registryOf [⟨"woodTexture", 1⟩, ⟨"backDrop", 2⟩]) "grey.png" "pcKey"
    (Or.inr ⟨⟨64, 64, 2⟩, by decide, by decide, by decide⟩)

/-- C5, counterexample: with all 16 slots registered, a load whose decode succeeds with
3 channels writes `m_textureIDs[16]`, outside the array; the call does not return true
with a registry of 17 entries. -/
theorem C5_full_registry_overflows :
    WellFormed fullRegistry ∧ (registry fullRegistry).length = 16 ∧
    decodeAs (some 3) "book.jpg" = some ⟨64, 64, 3⟩ ∧
    CreateGLTexture (decodeAs (some 3)) 17 fullRegistry "book.jpg" "backDrop"
      = .error .outOfBounds := by
  decide

/-- C5, amended: for every well-formed registry with `n < 16` registered textures, when
the image decode succeeds with 3 or 4 channels, `CreateGLTexture` returns true and the
registry afterwards is the registry before followed by the entry with the given tag and
the newly generated handle: it has `n + 1` entries, entries `0 .. n-1` are unchanged and
entry `n` is the new one.  The state stays well formed when the handle is a `GLuint`. -/
theorem C5_successful_load_appends {α : Type} (stbi_load : String → Option STBI_IMAGE)
    (glGenTextures : Nat) (s : SceneManager α) (filename tag : String) (image : STBI_IMAGE)
    (hwf : WellFormed s) (hroom : s.m_loadedTextures < (MAX_TEXTURES : Int))
    (hload : stbi_load filename = some image)
    (hch : image.colorChannels = 3 ∨ image.colorChannels = 4) :
    ∃ s1 : SceneManager α,
      CreateGLTexture stbi_load glGenTextures s filename tag = .ok (true, s1) ∧
      s1.m_loadedTextures = s.m_loadedTextures + 1 ∧
      registry s1 = registry s ++ [⟨tag, glGenTextures⟩] ∧
      ((registry s1).length : Int) = s.m_loadedTextures + 1 ∧
      (∀ k : Nat, (k : Int) < s.m_loadedTextures → (registry s1)[k]? = (registry s)[k]?) ∧
      (registry s1)[s.m_loadedTextures.toNat]? = some ⟨tag, glGenTextures⟩ ∧
      s1.m_objectMaterials = s.m_objectMaterials ∧
      (glGenTextures < 4294967296 → WellFormed s1) := by
  obtain ⟨hl, h0, hle, hids⟩ := hwf
  have h1 : s.m_loadedTextures < (s.m_textureIDs.length : Int) := by rw [hl]; exact hroom
  have hlenle : s.m_loadedTextures ≤ (s.m_textureIDs.length : Int) := by omega
  have hrl := registry_length s h0 hlenle
  have hr := registry_after_register s ⟨tag, glGenTextures⟩ h0 h1
  refine ⟨_, CreateGLTexture_registers stbi_load glGenTextures s filename tag image hload hch
    h0 h1, rfl, hr, ?_, ?_, ?_, rfl, ?_⟩
  · rw [hr]; simp; omega
  · intro k hk
    rw [hr, List.getElem?_append_left (by omega)]
  · rw [hr, List.getElem?_append_right (by omega)]
    have : s.m_loadedTextures.toNat - (registry s).length = 0 := by omega
    simp [this]
  · intro hgen
    refine ⟨by simpa using hl, by simp; omega, by simp; unfold MAX_TEXTURES at hroom ⊢; omega, ?_⟩
    intro e he
    simp only at he
    rcases List.mem_or_eq_of_mem_set he with hmem | heq
    · exact hids e hmem
    · subst heq; exact hgen

/-- C5, amended, at a concrete input: a third texture is loaded into a registry of two. -/
theorem C5_successful_load_appends_witness :
    ∃ s1 : SceneManager ℚ,
      CreateGLTexture (decodeAs (some 4)) 8 (registryOf [⟨"woodTexture", 1⟩, ⟨"backDrop", 2⟩])
        "monitorscreen.jpg" "monScreen" = .ok (true, s1) ∧
      s1.m_loadedTextures
        = (registryOf [⟨"woodTexture", 1⟩, ⟨"backDrop", 2⟩]).m_loadedTextures + 1 ∧
      registry s1
        = registry (registryOf [⟨"woodTexture", 1⟩, ⟨"backDrop", 2⟩]) ++ [⟨"monScreen", 8⟩] ∧
      ((registry s1).length : Int)
        = (registryOf [⟨"woodTexture", 1⟩, ⟨"backDrop", 2⟩]).m_loadedTextures + 1 ∧
      (∀ k : Nat,
        (k : Int) < (registryOf [⟨"woodTexture", 1⟩, ⟨"backDrop", 2⟩]).m_loadedTextures →
        (registry s1)[k]? = (registry (registryOf [⟨"woodTexture", 1⟩, ⟨"backDrop", 2⟩]))[k]?) ∧
      (registry s1)[(registryOf [⟨"woodTexture", 1⟩, ⟨"backDrop", 2⟩]).m_loadedTextures.toNat]?
        = some ⟨"monScreen", 8⟩ ∧
      s1.m_objectMaterials
        = (registryOf [⟨"woodTexture", 1⟩, ⟨"backDrop", 2⟩]).m_objectMaterials ∧
      (8 < 4294967296 → WellFormed s1) :=
  C5_successful_load_appends (decodeAs (some 4)) 8
    (registryOf [⟨"woodTexture", 1⟩, ⟨"backDrop", 2⟩]) "monitorscreen.jpg" "monScreen"
    ⟨64, 64, 4⟩ (by decide) (by decide) (by decide) (by decide)

/-! ## Material lookup -/

theorem readMaterial_ok {α : Type} (v : List (OBJECT_MATERIAL α)) (k : Int)
    (h0 : 0 ≤ k) (h1 : k < (v.length : Int)) :
    ∃ m, v[k.toNat]? = some m ∧ readMaterial v k = .ok m := by
  have hlt : k.toNat < v.length := by omega
  exact ⟨v[k.toNat], List.getElem?_eq_getElem hlt,
    by simp [readMaterial, h0, List.getElem?_eq_getElem hlt]⟩

theorem FindMaterial_loop_done {α : Type} (s : SceneManager α) (tag : String) (fuel : Nat)
    (st : FindMaterialLocals α) (h : st.bFound = true) :
    FindMaterial.loop s tag fuel st = .ok st := by
  cases fuel <;> simp [FindMaterial.loop, h]

theorem FindMaterial_loop_hit {α : Type} (s : SceneManager α) (tag : String) (i : Nat)
    (m : OBJECT_MATERIAL α) (hget : s.m_objectMaterials[i]? = some m) (htag : m.tag = tag)
    (hfirst : ∀ (j : Nat) (m0 : OBJECT_MATERIAL α), j < i →
      s.m_objectMaterials[j]? = some m0 → m0.tag ≠ tag)
    (material : OBJECT_MATERIAL α) :
    ∀ (d : Nat) (k : Int) (fuel : Nat), 0 ≤ k → k + d = (i : Int) → d < fuel →
      FindMaterial.loop s tag fuel ⟨k, false, material⟩ =
        .ok ⟨(i : Int), true,
          { material with
            ambientColor := m.ambientColor
            ambientStrength := m.ambientStrength
            diffuseColor := m.diffuseColor
            specularColor := m.specularColor
            shininess := m.shininess }⟩ := by
  have hilt : i < s.m_objectMaterials.length := by
    rcases List.getElem?_eq_some.mp hget with ⟨h, _⟩
    exact h
  intro d
  induction d with
  | zero =>
    intro k fuel hk hki hf
    obtain ⟨f, rfl⟩ : ∃ f, fuel = f + 1 := ⟨fuel - 1, by omega⟩
    have hki2 : k = (i : Int) := by simpa using hki
    subst hki2
    have hk1 : (i : Int) < (s.m_objectMaterials.length : Int) := by omega
    obtain ⟨m1, h1, h2⟩ := readMaterial_ok s.m_objectMaterials (i : Int) hk hk1
    have hm : m1 = m := by
      simp only [Int.toNat_ofNat] at h1
      rw [hget] at h1
      exact (Option.some.inj h1).symm
    subst hm
    simp [FindMaterial.loop, hilt, h2, htag, FindMaterial_loop_done]
  | succ d ih =>
    intro k fuel hk hki hf
    obtain ⟨f, rfl⟩ : ∃ f, fuel = f + 1 := ⟨fuel - 1, by omega⟩
    have hk1 : k < (s.m_objectMaterials.length : Int) := by push_cast at hki; omega
    obtain ⟨m1, h1, h2⟩ := readMaterial_ok s.m_objectMaterials k hk hk1
    have hne : m1.tag ≠ tag := hfirst k.toNat m1 (by push_cast at hki; omega) h1
    simp only [FindMaterial.loop, hk1, h2, hne, and_self, if_true, if_false]
    exact ih (k + 1) f (by omega) (by push_cast at hki ⊢; omega) (by omega)

theorem FindMaterial_loop_miss {α : Type} (s : SceneManager α) (tag : String)
    (hnone : ∀ m0 ∈ s.m_objectMaterials, m0.tag ≠ tag) (material : OBJECT_MATERIAL α) :
    ∀ (d : Nat) (k : Int) (fuel : Nat), 0 ≤ k →
      k + d = (s.m_objectMaterials.length : Int) → d ≤ fuel →
      FindMaterial.loop s tag fuel ⟨k, false, material⟩ =
        .ok ⟨(s.m_objectMaterials.length : Int), false, material⟩ := by
  intro d
  induction d with
  | zero =>
    intro k fuel hk hki hf
    have hki2 : k = (s.m_objectMaterials.length : Int) := by simpa using hki
    cases fuel <;> simp [FindMaterial.loop, hki2]
  | succ d ih =>
    intro k fuel hk hki hf
    obtain ⟨f, rfl⟩ : ∃ f, fuel = f + 1 := ⟨fuel - 1, by omega⟩
    have hk1 : k < (s.m_objectMaterials.length : Int) := by push_cast at hki; omega
    obtain ⟨m1, h1, h2⟩ := readMaterial_ok s.m_objectMaterials k hk hk1
    have hne : m1.tag ≠ tag := hnone m1 (List.getElem?_mem h1)
    simp only [FindMaterial.loop, hk1, h2, hne, and_self, if_true, if_false]
    exact ih (k + 1) f (by omega) (by push_cast at hki ⊢; omega) (by omega)

/-- On a material list that is not empty, `FindMaterial` returns true for a tag that no
material carries, and leaves the output material as it was. -/
theorem FindMaterial_unmatched {α : Type} (s : SceneManager α) (tag : String)
    (material : OBJECT_MATERIAL α) (hne : s.m_objectMaterials ≠ [])
    (hnone : ∀ m0 ∈ s.m_objectMaterials, m0.tag ≠ tag) :
    FindMaterial s tag material = .ok (true, material) := by
  have hlen : s.m_objectMaterials.length ≠ 0 := by
    intro h; exact hne (List.length_eq_zero.mp h)
  have h := FindMaterial_loop_miss s tag hnone material s.m_objectMaterials.length 0
    s.m_objectMaterials.length (le_refl 0) (by omega) (le_refl _)
  simp [FindMaterial, hlen, h]

/-- On an empty material list `FindMaterial` returns false. -/
theorem FindMaterial_empty {α : Type} (s : SceneManager α) (tag : String)
    (material : OBJECT_MATERIAL α) (he : s.m_objectMaterials = []) :
    FindMaterial s tag material = .ok (false, material) := by
  simp [FindMaterial, he]

/-! ## Claims on the material list -/

/-- C6, the code at a failing input: after `DefineObjectMaterials`, no material carries
the tag "gold", yet `FindMaterial` returns true and leaves the output material
untouched, and `SetShaderMaterial`, which checks the result, uploads the five values of
its uninitialised local material. -/
theorem C6_unmatched_tag_reports_found :
    (∀ m ∈ sceneMaterials.m_objectMaterials, m.tag ≠ "gold") ∧
    FindMaterial sceneMaterials "gold" staleMaterial = .ok (true, staleMaterial) ∧
    SetShaderMaterial sceneMaterials staleMaterial "gold" =
      .ok [("material.ambientColor", .vec3 staleMaterial.ambientColor),
           ("material.ambientStrength", .float staleMaterial.ambientStrength),
           ("material.diffuseColor", .vec3 staleMaterial.diffuseColor),
           ("material.specularColor", .vec3 staleMaterial.specularColor),
           ("material.shininess", .float staleMaterial.shininess)] := by
  decide

/-- C7: for every material list and every tag carried by at least one defined material,
`FindMaterial` returns true and sets the output `ambientColor`,
`ambientStrength`, `diffuseColor`, `specularColor` and `shininess` to those of the first
material in definition order whose tag equals the requested tag; the output
own tag is not written. -/
theorem C7_FindMaterial_first_match {α : Type} (s : SceneManager α) (tag : String)
    (material : OBJECT_MATERIAL α) (hmem : ∃ m ∈ s.m_objectMaterials, m.tag = tag) :
    ∃ (i : Nat) (m : OBJECT_MATERIAL α) (out : OBJECT_MATERIAL α),
      s.m_objectMaterials[i]? = some m ∧ m.tag = tag ∧
      (∀ m0 ∈ s.m_objectMaterials.take i, m0.tag ≠ tag) ∧
      FindMaterial s tag material = .ok (true, out) ∧
      out.ambientColor = m.ambientColor ∧ out.ambientStrength = m.ambientStrength ∧
      out.diffuseColor = m.diffuseColor ∧ out.specularColor = m.specularColor ∧
      out.shininess = m.shininess ∧ out.tag = material.tag := by
  classical
  have hP : ∃ n : Nat, ∃ m, s.m_objectMaterials[n]? = some m ∧ m.tag = tag := by
    obtain ⟨m, hm, ht⟩ := hmem
    obtain ⟨n, hn⟩ := List.mem_iff_getElem?.mp hm
    exact ⟨n, m, hn, ht⟩
  obtain ⟨m, hget, htag⟩ := Nat.find_spec hP
  have hfirst : ∀ (j : Nat) (m0 : OBJECT_MATERIAL α), j < Nat.find hP →
      s.m_objectMaterials[j]? = some m0 → m0.tag ≠ tag :=
    fun j m0 hj hj2 ht => Nat.find_min hP hj ⟨m0, hj2, ht⟩
  have hilt : Nat.find hP < s.m_objectMaterials.length := by
    rcases List.getElem?_eq_some.mp hget with ⟨h, _⟩
    exact h
  have hlen : s.m_objectMaterials.length ≠ 0 := by omega
  have hloop := FindMaterial_loop_hit s tag (Nat.find hP) m hget htag hfirst material
    (Nat.find hP) 0 s.m_objectMaterials.length (le_refl 0) (by omega) hilt
  refine ⟨Nat.find hP, m,
    { material with
      ambientColor := m.ambientColor
      ambientStrength := m.ambientStrength
      diffuseColor := m.diffuseColor
      specularColor := m.specularColor
      shininess := m.shininess },
    hget, htag, ?_, ?_, rfl, rfl, rfl, rfl, rfl, rfl⟩
  · intro m0 hm0
    obtain ⟨j, hj⟩ := List.mem_iff_getElem?.mp hm0
    rw [List.getElem?_take] at hj
    split at hj
    · rename_i hlt
      exact hfirst j m0 hlt hj
    · simp at hj
  · simp [FindMaterial, hlen, hloop]

/-- C7 at a concrete input: "pencil" is the fourth material that `DefineObjectMaterials`
defines. -/
theorem C7_FindMaterial_first_match_witness :
    ∃ (i : Nat) (m : OBJECT_MATERIAL ℚ) (out : OBJECT_MATERIAL ℚ),
      sceneMaterials.m_objectMaterials[i]? = some m ∧ m.tag = "pencil" ∧
      (∀ m0 ∈ sceneMaterials.m_objectMaterials.take i, m0.tag ≠ "pencil") ∧
      FindMaterial sceneMaterials "pencil" staleMaterial = .ok (true, out) ∧
      out.ambientColor = m.ambientColor ∧ out.ambientStrength = m.ambientStrength ∧
      out.diffuseColor = m.diffuseColor ∧ out.specularColor = m.specularColor ∧
      out.shininess = m.shininess ∧ out.tag = staleMaterial.tag :=
  C7_FindMaterial_first_match sceneMaterials "pencil" staleMaterial (by decide)

/-! ## Model transform: exact arithmetic -/

section

variable {α : Type} [Field α]

theorem mat4.mul_def (a b : mat4 α) : a * b = mat4.mul a b := rfl

theorem vec4.add_def (a b : vec4 α) : a + b = vec4.add a b := rfl

theorem glm.rotate_X (ops : MathOps α) (h1 : ops.sqrt 1 = 1) (a : α) :
    glm.rotate ops a ⟨1, 0, 0⟩ =
      ⟨⟨1, 0, 0, 0⟩, ⟨0, ops.cos a, ops.sin a, 0⟩, ⟨0, -ops.sin a, ops.cos a, 0⟩, ⟨0, 0, 0, 1⟩⟩ := by
  simp [glm.rotate, glm.rotateMat, glm.normalize, glm.inversesqrt, glm.dot, h1, mat4.identity,
    vec3.mulScalar, vec3.scalarMul, vec4.mulScalar, vec4.add_def, vec4.add]

theorem glm.rotate_Y (ops : MathOps α) (h1 : ops.sqrt 1 = 1) (a : α) :
    glm.rotate ops a ⟨0, 1, 0⟩ =
      ⟨⟨ops.cos a, 0, -ops.sin a, 0⟩, ⟨0, 1, 0, 0⟩, ⟨ops.sin a, 0, ops.cos a, 0⟩, ⟨0, 0, 0, 1⟩⟩ := by
  simp [glm.rotate, glm.rotateMat, glm.normalize, glm.inversesqrt, glm.dot, h1, mat4.identity,
    vec3.mulScalar, vec3.scalarMul, vec4.mulScalar, vec4.add_def, vec4.add]

theorem glm.rotate_Z (ops : MathOps α) (h1 : ops.sqrt 1 = 1) (a : α) :
    glm.rotate ops a ⟨0, 0, 1⟩ =
      ⟨⟨ops.cos a, ops.sin a, 0, 0⟩, ⟨-ops.sin a, ops.cos a, 0, 0⟩, ⟨0, 0, 1, 0⟩, ⟨0, 0, 0, 1⟩⟩ := by
  simp [glm.rotate, glm.rotateMat, glm.normalize, glm.inversesqrt, glm.dot, h1, mat4.identity,
    vec3.mulScalar, vec3.scalarMul, vec4.mulScalar, vec4.add_def, vec4.add]

theorem glm.scale_eq (v : vec3 α) :
    glm.scale v = ⟨⟨v.x, 0, 0, 0⟩, ⟨0, v.y, 0, 0⟩, ⟨0, 0, v.z, 0⟩, ⟨0, 0, 0, 1⟩⟩ := by
  simp [glm.scale, glm.scaleMat, mat4.identity, vec4.mulScalar]

theorem glm.translate_eq (v : vec3 α) :
    glm.translate v = ⟨⟨1, 0, 0, 0⟩, ⟨0, 1, 0, 0⟩, ⟨0, 0, 1, 0⟩, ⟨v.x, v.y, v.z, 1⟩⟩ := by
  simp [glm.translate, glm.translateMat, mat4.identity, vec4.mulScalar, vec4.add_def, vec4.add]

theorem mat4.toMatrix_mul (a b : mat4 α) : (a * b).toMatrix = a.toMatrix * b.toMatrix := by
  obtain ⟨⟨a00, a01, a02, a03⟩, ⟨a10, a11, a12, a13⟩, ⟨a20, a21, a22, a23⟩,
    ⟨a30, a31, a32, a33⟩⟩ := a
  obtain ⟨⟨b00, b01, b02, b03⟩, ⟨b10, b11, b12, b13⟩, ⟨b20, b21, b22, b23⟩,
    ⟨b30, b31, b32, b33⟩⟩ := b
  simp only [mat4.toMatrix, mat4.mul_def, mat4.mul, vec4.mulScalar, vec4.add_def, vec4.add]
  ext i j
  fin_cases i <;> fin_cases j <;> simp [Matrix.mul_apply, Fin.sum_univ_four]

/-- The matrix computed by `SetTransformations`, as the product the specification
names, for any exact arithmetic in which the square root of 1 is 1. -/
theorem modelView_toMatrix (ops : MathOps α) (h1 : ops.sqrt 1 = 1) (scaleXYZ : vec3 α)
    (xr yr zr : α) (positionXYZ : vec3 α) :
    (SetTransformations.modelView ops scaleXYZ xr yr zr positionXYZ).toMatrix =
      specTranslation positionXYZ *
        specRotationX (ops.cos (glm.radians ops xr)) (ops.sin (glm.radians ops xr)) *
        specRotationY (ops.cos (glm.radians ops yr)) (ops.sin (glm.radians ops yr)) *
        specRotationZ (ops.cos (glm.radians ops zr)) (ops.sin (glm.radians ops zr)) *
        specScale scaleXYZ := by
  unfold SetTransformations.modelView
  simp only [mat4.toMatrix_mul, glm.rotate_X ops h1, glm.rotate_Y ops h1, glm.rotate_Z ops h1,
    glm.scale_eq, glm.translate_eq]
  simp only [mat4.toMatrix, specTranslation, specRotationX, specRotationY, specRotationZ,
    specScale]

/-- The matrix computed by `SetTransformations` applied to a point. -/
theorem modelView_mulVec (ops : MathOps α) (h1 : ops.sqrt 1 = 1) (scaleXYZ : vec3 α)
    (xr yr zr : α) (positionXYZ : vec3 α) (p : vec3 α) :
    (SetTransformations.modelView ops scaleXYZ xr yr zr positionXYZ).mulVec p.toPoint =
      (specTranslatePoint positionXYZ
        (specRotateX (ops.cos (glm.radians ops xr)) (ops.sin (glm.radians ops xr))
          (specRotateY (ops.cos (glm.radians ops yr)) (ops.sin (glm.radians ops yr))
            (specRotateZ (ops.cos (glm.radians ops zr)) (ops.sin (glm.radians ops zr))
              (specScalePoint scaleXYZ p))))).toPoint := by
  unfold SetTransformations.modelView
  simp only [glm.rotate_X ops h1, glm.rotate_Y ops h1, glm.rotate_Z ops h1,
    glm.scale_eq, glm.translate_eq]
  simp [mat4.mulVec, mat4.mul_def, mat4.mul, vec4.mulScalar, vec4.add_def, vec4.add,
    vec3.toPoint, specTranslatePoint, specRotateX, specRotateY, specRotateZ, specScalePoint]
  refine ⟨?_, ?_, ?_⟩ <;> ring

/-- With unit scale, no rotation and no translation the computed matrix is the
identity, for any exact arithmetic with `sqrt 1 = 1`, `cos 0 = 1` and `sin 0 = 0`. -/
theorem modelView_identity (ops : MathOps α) (h1 : ops.sqrt 1 = 1) (hc : ops.cos 0 = 1)
    (hs : ops.sin 0 = 0) :
    SetTransformations.modelView ops ⟨1, 1, 1⟩ 0 0 0 ⟨0, 0, 0⟩ = mat4.identity := by
  have hr : glm.radians ops 0 = 0 := by simp [glm.radians]
  unfold SetTransformations.modelView
  simp only [glm.rotate_X ops h1, glm.rotate_Y ops h1, glm.rotate_Z ops h1, glm.scale_eq,
    glm.translate_eq, hr, hc, hs]
  simp [mat4.mul_def, mat4.mul, vec4.mulScalar, vec4.add_def, vec4.add, mat4.identity]

end

/-! ## Claims on the model transform, over the real numbers -/

theorem radians_zero_real :
    glm.radians (MathOps.mk Real.cos Real.sin Real.sqrt Real.pi) 0 = 0 := by
  simp [glm.radians]

theorem radians_ninety_real :
    glm.radians (MathOps.mk Real.cos Real.sin Real.sqrt Real.pi) 90 = Real.pi / 2 := by
  simp only [glm.radians]
  ring

/-- C8: for every scale vector, every triple of rotation angles in degrees and every
position, the model matrix that `SetTransformations` hands to the shader manager (under
the name "model", when the shader manager is present) is `T * Rx * Ry * Rz * S`, where
`S` scales by the scale vector, `Rx`, `Ry`, `Rz` rotate about the X, Y and Z axes by the
angles converted from degrees to radians and `T` translates by the position; it maps
every point `p` to `position + Rx (Ry (Rz (scale * p)))`.  Arithmetic is that of the real
numbers. -/
theorem C8_model_matrix_composition (s : SceneManager ℝ) (scaleXYZ : vec3 ℝ)
    (XrotationDegrees YrotationDegrees ZrotationDegrees : ℝ) (positionXYZ : vec3 ℝ) :
    ∃ M : mat4 ℝ,
      SetTransformations (MathOps.mk Real.cos Real.sin Real.sqrt Real.pi) s scaleXYZ
        XrotationDegrees YrotationDegrees ZrotationDegrees positionXYZ
        = (if s.m_pShaderManager then [("model", UniformValue.mat4 M)] else []) ∧
      M.toMatrix =
        specTranslation positionXYZ *
          specRotationX (Real.cos (XrotationDegrees * (Real.pi / 180)))
            (Real.sin (XrotationDegrees * (Real.pi / 180))) *
          specRotationY (Real.cos (YrotationDegrees * (Real.pi / 180)))
            (Real.sin (YrotationDegrees * (Real.pi / 180))) *
          specRotationZ (Real.cos (ZrotationDegrees * (Real.pi / 180)))
            (Real.sin (ZrotationDegrees * (Real.pi / 180))) *
          specScale scaleXYZ ∧
      ∀ p : vec3 ℝ,
        M.mulVec p.toPoint =
          (specTranslatePoint positionXYZ
            (specRotateX (Real.cos (XrotationDegrees * (Real.pi / 180)))
                (Real.sin (XrotationDegrees * (Real.pi / 180)))
              (specRotateY (Real.cos (YrotationDegrees * (Real.pi / 180)))
                  (Real.sin (YrotationDegrees * (Real.pi / 180)))
                (specRotateZ (Real.cos (ZrotationDegrees * (Real.pi / 180)))
                    (Real.sin (ZrotationDegrees * (Real.pi / 180)))
                  (specScalePoint scaleXYZ p))))).toPoint :=
  ⟨SetTransformations.modelView (MathOps.mk Real.cos Real.sin Real.sqrt Real.pi) scaleXYZ
      XrotationDegrees YrotationDegrees ZrotationDegrees positionXYZ,
    rfl,
    modelView_toMatrix (MathOps.mk Real.cos Real.sin Real.sqrt Real.pi) Real.sqrt_one scaleXYZ
      XrotationDegrees YrotationDegrees ZrotationDegrees positionXYZ,
    fun p => modelView_mulVec (MathOps.mk Real.cos Real.sin Real.sqrt Real.pi) Real.sqrt_one
      scaleXYZ XrotationDegrees YrotationDegrees ZrotationDegrees positionXYZ p⟩

/-- C9: with scale (1,1,1), rotations of 0 degrees and position (0,0,0),
`SetTransformations` hands the 4x4 identity matrix to the shader manager as the model
matrix. -/
theorem C9_identity_transform (s : SceneManager ℝ) :
    SetTransformations (MathOps.mk Real.cos Real.sin Real.sqrt Real.pi) s ⟨1, 1, 1⟩ 0 0 0
        ⟨0, 0, 0⟩
      = (if s.m_pShaderManager then [("model", UniformValue.mat4 mat4.identity)] else []) ∧
    (mat4.identity : mat4 ℝ).toMatrix = 1 := by
  constructor
  · have h := modelView_identity (MathOps.mk Real.cos Real.sin Real.sqrt Real.pi) Real.sqrt_one
      Real.cos_zero Real.sin_zero
    simp only [SetTransformations, h, g_ModelName]
  · ext i j
    fin_cases i <;> fin_cases j <;>
      simp [mat4.toMatrix, mat4.identity, Matrix.one_apply, Matrix.vecHead, Matrix.vecTail]

/-- C10: the model matrix that `SetTransformations` builds with unit scale, zero
position, X and Z rotations of 0 degrees and a Y rotation of 90 degrees maps the point
(1,0,0) to (0,0,-1), exactly, over the real numbers. -/
theorem C10_quarter_turn_about_Y (s : SceneManager ℝ) :
    ∃ M : mat4 ℝ,
      SetTransformations (MathOps.mk Real.cos Real.sin Real.sqrt Real.pi) s ⟨1, 1, 1⟩ 0 90 0
          ⟨0, 0, 0⟩
        = (if s.m_pShaderManager then [("model", UniformValue.mat4 M)] else []) ∧
      M.mulVec (vec3.toPoint ⟨1, 0, 0⟩) = vec3.toPoint ⟨0, 0, -1⟩ := by
  refine ⟨SetTransformations.modelView (MathOps.mk Real.cos Real.sin Real.sqrt Real.pi)
    ⟨1, 1, 1⟩ 0 90 0 ⟨0, 0, 0⟩, rfl, ?_⟩
  rw [modelView_mulVec (MathOps.mk Real.cos Real.sin Real.sqrt Real.pi) Real.sqrt_one]
  simp only [radians_zero_real, radians_ninety_real]
  simp [specTranslatePoint, specRotateX, specRotateY, specRotateZ, specScalePoint, vec3.toPoint]

/-! ## Claims on the camera and the view -/

section

variable {α : Type} [Field α]

/-- A look-at matrix maps its eye point to the origin, in any exact arithmetic. -/
theorem lookAt_mulVec_eye (ops : MathOps α) (eye center up : vec3 α) :
    (glm.lookAt ops eye center up).mulVec eye.toPoint = vec3.toPoint ⟨0, 0, 0⟩ := by
  unfold glm.lookAt
  generalize glm.normalize ops (center.sub eye) = f
  generalize glm.normalize ops (glm.cross f up) = s
  generalize glm.cross s f = u
  simp only [mat4.mulVec, vec4.mulScalar, vec4.add_def, vec4.add, glm.dot, vec3.toPoint,
    vec4.mk.injEq]
  refine ⟨?_, ?_, ?_, ?_⟩ <;> ring

/-- The keyboard step succeeds whenever there is a camera. -/
theorem ProcessKeyboardEvents_ok (cls : CameraClass α) (keys : Keys) (v : ViewManager α)
    (cam : Camera α) (hcam : v.g_pCamera = some cam) :
    ∃ (v1 : ViewManager α) (c1 : Camera α),
      ProcessKeyboardEvents cls keys v = .ok v1 ∧ v1.g_pCamera = some c1 ∧
      v1.bOrthographicProjection =
        (if keys.P then !v.bOrthographicProjection else v.bOrthographicProjection) := by
  unfold ProcessKeyboardEvents
  rw [hcam]
  cases hO : keys.O <;> cases hP : keys.P <;> cases hE : keys.ESCAPE <;> simp [hcam]

end

/-- C11: the view matrix, the look-at matrix from the camera position towards position
plus front with the camera up vector, maps the camera position to the origin of view
space (0,0,0), for every camera whose front vector is non-zero and not parallel to up
(the identity itself holds for every camera).
The camera that the `ViewManager` constructor sets up, with position (0,5,12), front
(0,-0.5,-2) and up (0,1,0), is such a camera.  Arithmetic is that of the real numbers. -/
theorem C11_view_maps_camera_to_origin (v : ViewManager ℝ) (pShaderManager : Bool)
    (newCamera cam : Camera ℝ) (_hfront : cam.Front ≠ ⟨0, 0, 0⟩)
    (_hpar : glm.cross cam.Front cam.Up ≠ ⟨0, 0, 0⟩) :
    (Camera.GetViewMatrix (MathOps.mk Real.cos Real.sin Real.sqrt Real.pi) cam).mulVec
        cam.Position.toPoint = vec3.toPoint ⟨0, 0, 0⟩ ∧
    ∃ c : Camera ℝ,
      (ViewManager.construct v pShaderManager newCamera).g_pCamera = some c ∧
      c.Position = ⟨0, 5, 12⟩ ∧ c.Front = ⟨0, -0.5, -2⟩ ∧ c.Up = ⟨0, 1, 0⟩ ∧
      c.Front ≠ ⟨0, 0, 0⟩ ∧ glm.cross c.Front c.Up ≠ ⟨0, 0, 0⟩ ∧
      (Camera.GetViewMatrix (MathOps.mk Real.cos Real.sin Real.sqrt Real.pi) c).mulVec
        (vec3.toPoint ⟨0, 5, 12⟩) = vec3.toPoint ⟨0, 0, 0⟩ := by
  refine ⟨lookAt_mulVec_eye _ _ _ _, _, rfl, ?_, ?_, ?_, ?_, ?_, ?_⟩
  · simp; norm_num
  · simp; norm_num
  · simp; norm_num
  · simp; norm_num
  · simp [glm.cross]; norm_num
  · have h := lookAt_mulVec_eye (MathOps.mk Real.cos Real.sin Real.sqrt Real.pi)
      (⟨0.0, 5.0, 12.0⟩ : vec3 ℝ) (vec3.add ⟨0.0, 5.0, 12.0⟩ ⟨0.0, -0.5, -2.0⟩) ⟨0.0, 1.0, 0.0⟩
    have e : (vec3.toPoint ⟨0, 5, 12⟩ : vec4 ℝ) = vec3.toPoint ⟨0.0, 5.0, 12.0⟩ := by
      simp [vec3.toPoint]; norm_num
    rw [e]
    exact h

/-- C11 at a concrete input: the default camera, looked at from a freshly constructed
view manager. -/
theorem C11_view_maps_camera_to_origin_witness :
    (Camera.GetViewMatrix (MathOps.mk Real.cos Real.sin Real.sqrt Real.pi)
        (Camera.mk ⟨0, 5, 12⟩ ⟨0, -0.5, -2⟩ ⟨0, 1, 0⟩ (-90) 0 80 2.5)).mulVec
        (Camera.mk ⟨0, 5, 12⟩ ⟨0, -0.5, -2⟩ ⟨0, 1, 0⟩ (-90) 0 80 2.5 : Camera ℝ).Position.toPoint
      = vec3.toPoint ⟨0, 0, 0⟩ ∧
    ∃ c : Camera ℝ,
      (ViewManager.construct ViewManager.initial true
        (Camera.mk ⟨0, 0, 0⟩ ⟨0, 0, -1⟩ ⟨0, 1, 0⟩ (-90) 0 45 2.5)).g_pCamera = some c ∧
      c.Position = ⟨0, 5, 12⟩ ∧ c.Front = ⟨0, -0.5, -2⟩ ∧ c.Up = ⟨0, 1, 0⟩ ∧
      c.Front ≠ ⟨0, 0, 0⟩ ∧ glm.cross c.Front c.Up ≠ ⟨0, 0, 0⟩ ∧
      (Camera.GetViewMatrix (MathOps.mk Real.cos Real.sin Real.sqrt Real.pi) c).mulVec
        (vec3.toPoint ⟨0, 5, 12⟩) = vec3.toPoint ⟨0, 0, 0⟩ :=
  C11_view_maps_camera_to_origin ViewManager.initial true
    (Camera.mk ⟨0, 0, 0⟩ ⟨0, 0, -1⟩ ⟨0, 1, 0⟩ (-90) 0 45 2.5)
    (Camera.mk ⟨0, 5, 12⟩ ⟨0, -0.5, -2⟩ ⟨0, 1, 0⟩ (-90) 0 80 2.5)
    (by simp) (by simp [glm.cross])

/-- C12: with a camera present, two `ProcessKeyboardEvents` steps in which P is pressed
both succeed; the first inverts the orthographic flag and the second restores its
original value.  Hence for every camera zoom the projection matrix that
`PrepareSceneView` chooses (aspect ratio 1000/800, near 0.1, far 100) after the two
toggles equals the one it chooses before them. -/
theorem C12_double_toggle_restores_projection {α : Type} [Field α] (cls : CameraClass α)
    (keys1 keys2 : Keys) (v : ViewManager α) (cam : Camera α)
    (hcam : v.g_pCamera = some cam) (hP1 : keys1.P = true) (hP2 : keys2.P = true) :
    ∃ v1 v2 : ViewManager α,
      ProcessKeyboardEvents cls keys1 v = .ok v1 ∧
      ProcessKeyboardEvents cls keys2 v1 = .ok v2 ∧
      v1.bOrthographicProjection = !v.bOrthographicProjection ∧
      v2.bOrthographicProjection = v.bOrthographicProjection ∧
      ∀ (ops : MathOps α) (tan : α → α) (Zoom : α),
        PrepareSceneView.projection ops tan v2.bOrthographicProjection Zoom =
          PrepareSceneView.projection ops tan v.bOrthographicProjection Zoom := by
  obtain ⟨v1, c1, h1, hc1, hf1⟩ := ProcessKeyboardEvents_ok cls keys1 v cam hcam
  obtain ⟨v2, c2, h2, _, hf2⟩ := ProcessKeyboardEvents_ok cls keys2 v1 c1 hc1
  rw [hP1] at hf1
  rw [hP2] at hf2
  simp only [if_true] at hf1 hf2
  have hback : v2.bOrthographicProjection = v.bOrthographicProjection := by
    rw [hf2, hf1]; simp
  refine ⟨v1, v2, h1, h2, hf1, hback, ?_⟩
  intro ops tan Zoom
  rw [hback]

/-- C12 at a concrete input: P alone is pressed twice, starting in orthographic mode. -/
theorem C12_double_toggle_restores_projection_witness :
    ∃ v1 v2 : ViewManager ℚ,
      ProcessKeyboardEvents recordingCamera { Keys.none with P := true } sampleView = .ok v1 ∧
      ProcessKeyboardEvents recordingCamera { Keys.none with P := true } v1 = .ok v2 ∧
      v1.bOrthographicProjection = !sampleView.bOrthographicProjection ∧
      v2.bOrthographicProjection = sampleView.bOrthographicProjection ∧
      ∀ (ops : MathOps ℚ) (tan : ℚ → ℚ) (Zoom : ℚ),
        PrepareSceneView.projection ops tan v2.bOrthographicProjection Zoom =
          PrepareSceneView.projection ops tan sampleView.bOrthographicProjection Zoom :=
  C12_double_toggle_restores_projection recordingCamera { Keys.none with P := true }
    { Keys.none with P := true } sampleView
    { Position := ⟨3, 1, -4⟩, Front := ⟨1, 0, 0⟩, Up := ⟨0, 1, 0⟩, Yaw := 0, Pitch := 10,
      Zoom := 60, MovementSpeed := 5 / 2 }
    rfl rfl rfl

/-- The first `Mouse_Position_Callback`, for any two roundings: it records the position
converted to `float`, clears the first-mouse flag and hands `ProcessMouseMovement` the
differences between the position and the recorded one, computed in `double` and
converted to `float`. -/
theorem Mouse_Position_Callback_first {α : Type} [Field α] (toDouble toFloat : α → α)
    (cls : CameraClass α) (v : ViewManager α) (cam : Camera α) (xMousePos yMousePos : α)
    (hfirst : v.gFirstMouse = true) (hcam : v.g_pCamera = some cam) :
    Mouse_Position_Callback toDouble toFloat cls v xMousePos yMousePos =
      .ok { v with
        gLastX := toFloat xMousePos
        gLastY := toFloat yMousePos
        gFirstMouse := false
        g_pCamera := some (cls.ProcessMouseMovement cam
          (toFloat (toDouble (xMousePos - toFloat xMousePos)))
          (toFloat (toDouble (toFloat yMousePos - yMousePos)))) } := by
  simp [Mouse_Position_Callback, hfirst, hcam]

theorem binary32_zero : binary32 0 = 0 := by
  simp [binary32, roundToBinary]

theorem binary64_zero : binary64 0 = 0 := by
  simp [binary64, roundToBinary]

/-- C13, counterexample: the first callback arrives at the cursor position (0.1, 0.7),
two values of type `double`, while the stored last position is (500, 400).  The
callback records the nearest `float` values, which differ from 0.1 and 0.7, and hands
`ProcessMouseMovement` the offsets -13421773 / 2^53 and -13421773 / 2^50 (about
-1.49e-9 and -1.19e-8), not (0, 0). -/
theorem C13_first_sample_offsets_not_zero :
    sampleView.gFirstMouse = true ∧ sampleView.gLastX = 500 ∧ sampleView.gLastY = 400 ∧
    binary64 (1 / 10) = 3602879701896397 / 36028797018963968 ∧
    binary64 (7 / 10) = 3152519739159347 / 4503599627370496 ∧
    Mouse_Position_Callback binary64 binary32 recordingCamera sampleView (binary64 (1 / 10))
        (binary64 (7 / 10)) =
      .ok { sampleView with
        gLastX := 13421773 / 134217728
        gLastY := 11744051 / 16777216
        gFirstMouse := false
        g_pCamera := some (recordingCamera.ProcessMouseMovement
          { Position := ⟨3, 1, -4⟩, Front := ⟨1, 0, 0⟩, Up := ⟨0, 1, 0⟩, Yaw := 0, Pitch := 10,
            Zoom := 60, MovementSpeed := 5 / 2 }
          (-13421773 / 9007199254740992) (-13421773 / 1125899906842624)) } ∧
    (-13421773 / 9007199254740992 : ℚ) ≠ 0 ∧ (-13421773 / 1125899906842624 : ℚ) ≠ 0 ∧
    (13421773 / 134217728 : ℚ) ≠ binary64 (1 / 10) ∧
    (11744051 / 16777216 : ℚ) ≠ binary64 (7 / 10) := by
  decide!

/-- C13, amended: for every cursor position (x, y) whose coordinates are values of type
`float`, the first `Mouse_Position_Callback` received (first-mouse flag still set) hands
the offsets (0, 0) to the camera `ProcessMouseMovement`, whatever the stored last
position was, records (x, y) as the last position and clears the first-mouse flag;
nothing else in the view state changes. -/
theorem C13_first_sample_of_float_position (cls : CameraClass ℚ) (v : ViewManager ℚ)
    (cam : Camera ℚ) (xMousePos yMousePos : ℚ) (hfirst : v.gFirstMouse = true)
    (hcam : v.g_pCamera = some cam) (hx : IsFloat xMousePos) (hy : IsFloat yMousePos) :
    Mouse_Position_Callback binary64 binary32 cls v xMousePos yMousePos =
      .ok { v with
        gLastX := xMousePos
        gLastY := yMousePos
        gFirstMouse := false
        g_pCamera := some (cls.ProcessMouseMovement cam 0 0) } := by
  rw [Mouse_Position_Callback_first binary64 binary32 cls v cam xMousePos yMousePos hfirst
    hcam, hx.1, hy.1, sub_self, sub_self, binary64_zero, binary32_zero]

/-- C13, amended, at a concrete input: the first sample arrives at the pixel position
(123, 456) while the stored last position is (500, 400); the recording camera class
shows the offsets (0, 0). -/
theorem C13_first_sample_of_float_position_witness :
    Mouse_Position_Callback binary64 binary32 recordingCamera sampleView 123 456 =
      .ok { sampleView with
        gLastX := 123
        gLastY := 456
        gFirstMouse := false
        g_pCamera := some (recordingCamera.ProcessMouseMovement
          { Position := ⟨3, 1, -4⟩, Front := ⟨1, 0, 0⟩, Up := ⟨0, 1, 0⟩, Yaw := 0, Pitch := 10,
            Zoom := 60, MovementSpeed := 5 / 2 } 0 0) } :=
  C13_first_sample_of_float_position recordingCamera sampleView
    { Position := ⟨3, 1, -4⟩, Front := ⟨1, 0, 0⟩, Up := ⟨0, 1, 0⟩, Yaw := 0, Pitch := 10,
      Zoom := 60, MovementSpeed := 5 / 2 } 123 456 rfl rfl (by decide) (by decide)

/-- C14: for every camera state, a `ProcessKeyboardEvents` step in which O is the only
key pressed leaves the camera with Position = (0,5,12), Front = (0,-0.5,-2) and
Up = (0,1,0) and changes nothing else: yaw, pitch, zoom and the projection-mode flag are
as before. -/
theorem C14_reset_keeps_derived_state {α : Type} [Field α] (cls : CameraClass α)
    (v : ViewManager α) (cam : Camera α) (hcam : v.g_pCamera = some cam) :
    ∃ (v1 : ViewManager α) (c1 : Camera α),
      ProcessKeyboardEvents cls { Keys.none with O := true } v = .ok v1 ∧
      v1 = { v with
        g_pCamera := some
          { cam with
            Position := ⟨0.0, 5.0, 12.0⟩, Front := ⟨0.0, -0.5, -2.0⟩, Up := ⟨0.0, 1.0, 0.0⟩ } } ∧
      v1.g_pCamera = some c1 ∧
      c1.Position = ⟨0.0, 5.0, 12.0⟩ ∧ c1.Front = ⟨0.0, -0.5, -2.0⟩ ∧ c1.Up = ⟨0.0, 1.0, 0.0⟩ ∧
      c1.Yaw = cam.Yaw ∧ c1.Pitch = cam.Pitch ∧ c1.Zoom = cam.Zoom ∧
      v1.bOrthographicProjection = v.bOrthographicProjection := by
  refine ⟨_, _, ?_, rfl, rfl, rfl, rfl, rfl, rfl, rfl, rfl, rfl⟩
  simp [ProcessKeyboardEvents, ProcessKeyboardEvents.move, Keys.none, hcam]

/-- C14 at a concrete input: the reset of a camera that has been moved and turned. -/
theorem C14_reset_keeps_derived_state_witness :
    ∃ (v1 : ViewManager ℚ) (c1 : Camera ℚ),
      ProcessKeyboardEvents recordingCamera { Keys.none with O := true } sampleView = .ok v1 ∧
      v1 = { sampleView with
        g_pCamera := some
          { (Camera.mk ⟨3, 1, -4⟩ ⟨1, 0, 0⟩ ⟨0, 1, 0⟩ 0 10 60 (5 / 2) : Camera ℚ) with
            Position := ⟨0.0, 5.0, 12.0⟩, Front := ⟨0.0, -0.5, -2.0⟩, Up := ⟨0.0, 1.0, 0.0⟩ } } ∧
      v1.g_pCamera = some c1 ∧
      c1.Position = ⟨0.0, 5.0, 12.0⟩ ∧ c1.Front = ⟨0.0, -0.5, -2.0⟩ ∧ c1.Up = ⟨0.0, 1.0, 0.0⟩ ∧
      c1.Yaw = (Camera.mk ⟨3, 1, -4⟩ ⟨1, 0, 0⟩ ⟨0, 1, 0⟩ 0 10 60 (5 / 2) : Camera ℚ).Yaw ∧
      c1.Pitch = (Camera.mk ⟨3, 1, -4⟩ ⟨1, 0, 0⟩ ⟨0, 1, 0⟩ 0 10 60 (5 / 2) : Camera ℚ).Pitch ∧
      c1.Zoom = (Camera.mk ⟨3, 1, -4⟩ ⟨1, 0, 0⟩ ⟨0, 1, 0⟩ 0 10 60 (5 / 2) : Camera ℚ).Zoom ∧
      v1.bOrthographicProjection = sampleView.bOrthographicProjection :=
  C14_reset_keeps_derived_state recordingCamera sampleView
    (Camera.mk ⟨3, 1, -4⟩ ⟨1, 0, 0⟩ ⟨0, 1, 0⟩ 0 10 60 (5 / 2)) rfl

/-! ## Binding the registry to texture units -/

theorem BindGLTextures_loop_eq {α : Type} (s : SceneManager α)
    (h0 : 0 ≤ s.m_loadedTextures) (hlen : s.m_loadedTextures ≤ (s.m_textureIDs.length : Int)) :
    ∀ (d : Nat) (k : Nat) (fuel : Nat), (k : Int) + d = s.m_loadedTextures → d ≤ fuel →
      BindGLTextures.loop s fuel (k : Int) = .ok (bindCalls k ((registry s).drop k)) := by
  have hrl := registry_length s h0 hlen
  intro d
  induction d with
  | zero =>
    intro k fuel hk hf
    have hk2 : (k : Int) = s.m_loadedTextures := by simpa using hk
    have hdrop : (registry s).drop k = [] := by
      apply List.drop_eq_nil_of_le
      omega
    cases fuel <;> simp [BindGLTextures.loop, hk2, hdrop, bindCalls]
  | succ d ih =>
    intro k fuel hk hf
    obtain ⟨f, rfl⟩ : ∃ f, fuel = f + 1 := ⟨fuel - 1, by omega⟩
    have hk1 : (k : Int) < s.m_loadedTextures := by push_cast at hk; omega
    obtain ⟨e1, h1, h2⟩ := registered_of_lt hlen (Int.ofNat_nonneg k) hk1
    rw [registered_natCast] at h1
    have hklt : k < (registry s).length := by omega
    have hdrop : (registry s).drop k = e1 :: (registry s).drop (k + 1) := by
      rw [List.drop_eq_getElem_cons hklt]
      congr 1
      rw [List.getElem?_eq_getElem hklt] at h1
      exact Option.some.inj h1
    have hih := ih (k + 1) f (by push_cast at hk ⊢; omega) (by omega)
    push_cast at hih
    simp only [BindGLTextures.loop, hk1, if_true, h2, hih, hdrop, bindCalls, Int.toNat_ofNat]

theorem BindGLTextures_eq {α : Type} (s : SceneManager α) (hwf : WellFormed s) :
    BindGLTextures s = (.ok (bindCalls 0 (registry s)) : Except Fault (List (Call α))) := by
  have h := BindGLTextures_loop_eq s hwf.2.1 hwf.count_le s.m_loadedTextures.toNat 0
    s.m_loadedTextures.toNat (by have := hwf.2.1; omega) (le_refl _)
  simpa [BindGLTextures] using h

theorem run_bindCalls {α : Type} :
    ∀ (es : List TEXTURE_INFO) (i : Nat) (p : Pipeline),
      i + es.length ≤ p.gl.maxTextureUnits →
      (p.run (bindCalls i es : List (Call α))).gl.maxTextureUnits = p.gl.maxTextureUnits ∧
      (∀ u : Nat, u < i ∨ i + es.length ≤ u →
        (p.run (bindCalls i es : List (Call α))).gl.textureBinding2D u
          = p.gl.textureBinding2D u) ∧
      (∀ (j : Nat) (e : TEXTURE_INFO), es[j]? = some e →
        (p.run (bindCalls i es : List (Call α))).gl.textureBinding2D (i + j) = e.ID) := by
  intro es
  induction es with
  | nil =>
    intro i p _
    simp [bindCalls, Pipeline.run]
  | cons e rest ih =>
    intro i p hmax
    have hlen : (e :: rest).length = rest.length + 1 := rfl
    have hi : i < p.gl.maxTextureUnits := by omega
    -- the pipeline after the two calls for `e`
    have hstep : ∃ q : Pipeline,
        p.run (bindCalls i (e :: rest) : List (Call α))
          = q.run (bindCalls (i + 1) rest : List (Call α)) ∧
        q.gl.maxTextureUnits = p.gl.maxTextureUnits ∧
        q.gl.textureBinding2D i = e.ID ∧
        ∀ u, u ≠ i → q.gl.textureBinding2D u = p.gl.textureBinding2D u := by
      refine ⟨(p.step (Call.glActiveTexture (GL_TEXTURE0 + i) : Call α)).step
        (Call.glBindTexture GL_TEXTURE_2D e.ID : Call α), rfl, ?_, ?_, ?_⟩
      · simp [Pipeline.step, GLContext.glActiveTexture, GLContext.glBindTexture, hi]
      · simp [Pipeline.step, GLContext.glActiveTexture, GLContext.glBindTexture, hi]
      · intro u hu
        simp [Pipeline.step, GLContext.glActiveTexture, GLContext.glBindTexture, hi, hu]
    obtain ⟨q, hq, hqmax, hqi, hqo⟩ := hstep
    obtain ⟨ih1, ih2, ih3⟩ := ih (i + 1) q (by rw [hqmax]; omega)
    rw [hq]
    refine ⟨by rw [ih1, hqmax], ?_, ?_⟩
    · intro u hu
      rw [ih2 u (by omega), hqo u (by omega)]
    · intro j e0 hj
      cases j with
      | zero =>
        simp at hj
        subst hj
        have h := ih2 i (by omega)
        simp only [Nat.add_zero]
        rw [h, hqi]
      | succ j =>
        simp at hj
        have := ih3 j e0 hj
        rw [← this]
        congr 1
        omega

/-- C15: for a well-formed registry with `n` registered textures and an OpenGL context
with at least `n` texture units, `BindGLTextures` returns, and after its calls texture
unit `i` holds the handle of entry `i` of the registry for every `i < n`, in
registration order from unit 0, while the binding of every unit `u` with `n ≤ u` is
what it was.  Hence for every registered tag `T`, duplicated or not, the unit numbered
`FindTextureSlot(T)` holds the handle that `FindTextureID(T)` returns. -/
theorem C15_bind_units_in_registration_order {α : Type} (s : SceneManager α) (p : Pipeline)
    (hwf : WellFormed s) (hunits : s.m_loadedTextures ≤ (p.gl.maxTextureUnits : Int)) :
    ∃ calls : List (Call α),
      BindGLTextures s = .ok calls ∧ calls = bindCalls 0 (registry s) ∧
      (∀ (i : Nat) (e : TEXTURE_INFO), (registry s)[i]? = some e →
        (p.run calls).gl.textureBinding2D i = e.ID) ∧
      (∀ u : Nat, s.m_loadedTextures ≤ (u : Int) →
        (p.run calls).gl.textureBinding2D u = p.gl.textureBinding2D u) ∧
      (∀ T : String, (∃ e ∈ registry s, e.tag = T) →
        ∃ slot : Nat, FindTextureSlot s T = .ok (slot : Int) ∧
          FindTextureID s T = .ok (toInt ((p.run calls).gl.textureBinding2D slot))) := by
  have hlen := hwf.count_le
  have hrl := registry_length s hwf.2.1 hlen
  obtain ⟨_, h2, h3⟩ := run_bindCalls (α := α) (registry s) 0 p (by omega)
  refine ⟨bindCalls 0 (registry s), BindGLTextures_eq s hwf, rfl, ?_, ?_, ?_⟩
  · intro i e hi
    have := h3 i e hi
    rwa [Nat.zero_add] at this
  · intro u hu
    exact h2 u (Or.inr (by omega))
  · intro T hmem
    have hex : ∃ i e, registered s i = some e ∧ e.tag = T := by
      obtain ⟨e, he, ht⟩ := hmem
      obtain ⟨n, hn⟩ := List.mem_iff_getElem?.mp he
      exact ⟨(n : Int), e, by rw [registered_natCast]; exact hn, ht⟩
    obtain ⟨i, e, hreg, htag, hfirst⟩ := exists_first_registered s T hex
    obtain ⟨hi0, _, _⟩ := registered_eq_some hreg
    have hget := registered_of_some hreg
    have hb := h3 i.toNat e hget
    rw [Nat.zero_add] at hb
    refine ⟨i.toNat, ?_, ?_⟩
    · rw [Int.toNat_of_nonneg hi0]
      exact FindTextureSlot_first s T i e hlen hreg htag hfirst
    · rw [hb]
      exact FindTextureID_first s T i e hlen hreg htag hfirst

/-- C15 at a concrete input: three textures, two of them under the same tag, bound in a
context with 16 texture units. -/
theorem C15_bind_units_in_registration_order_witness :
    ∃ calls : List (Call ℚ),
      BindGLTextures (registryOf [⟨"penCup", 5⟩, ⟨"lampGold", 7⟩, ⟨"lampGold", 9⟩]) = .ok calls ∧
      calls = bindCalls 0 (registry (registryOf [⟨"penCup", 5⟩, ⟨"lampGold", 7⟩, ⟨"lampGold", 9⟩])) ∧
      (∀ (i : Nat) (e : TEXTURE_INFO),
        (registry (registryOf [⟨"penCup", 5⟩, ⟨"lampGold", 7⟩, ⟨"lampGold", 9⟩]))[i]? = some e →
        ((Pipeline.fresh 16).run calls).gl.textureBinding2D i = e.ID) ∧
      (∀ u : Nat,
        (registryOf [⟨"penCup", 5⟩, ⟨"lampGold", 7⟩, ⟨"lampGold", 9⟩]).m_loadedTextures ≤ (u : Int) →
        ((Pipeline.fresh 16).run calls).gl.textureBinding2D u
          = (Pipeline.fresh 16).gl.textureBinding2D u) ∧
      (∀ T : String,
        (∃ e ∈ registry (registryOf [⟨"penCup", 5⟩, ⟨"lampGold", 7⟩, ⟨"lampGold", 9⟩]), e.tag = T) →
        ∃ slot : Nat,
          FindTextureSlot (registryOf [⟨"penCup", 5⟩, ⟨"lampGold", 7⟩, ⟨"lampGold", 9⟩]) T
            = .ok (slot : Int) ∧
          FindTextureID (registryOf [⟨"penCup", 5⟩, ⟨"lampGold", 7⟩, ⟨"lampGold", 9⟩]) T
            = .ok (toInt (((Pipeline.fresh 16).run calls).gl.textureBinding2D slot))) :=
  C15_bind_units_in_registration_order
    (registryOf [⟨"penCup", 5⟩, ⟨"lampGold", 7⟩, ⟨"lampGold", 9⟩]) (Pipeline.fresh 16)
    (by decide) (by decide)

/-! ## Selecting the texture of a draw -/

/-- For a tag that no registered entry carries, `SetShaderTexture` switches texturing on
and uploads the sentinel -1 as the sampler index. -/
theorem SetShaderTexture_unregistered {α : Type} (s : SceneManager α) (tag : String)
    (hwf : WellFormed s) (hshader : s.m_pShaderManager = true)
    (hnone : ∀ e ∈ registry s, e.tag ≠ tag) :
    SetShaderTexture s tag =
      .ok [("bUseTexture", UniformValue.int 1), ("objectTexture", UniformValue.sampler2D (-1))] := by
  have h := FindTextureSlot_miss s tag hwf.count_le (none_of_registry s tag hnone)
  simp [SetShaderTexture, hshader, h, g_UseTextureName, g_TextureValueName]

/-- C16, the code at a failing input: all seven textures load into an empty registry
(texture names 1 to 7).  Of the ten textured draws of `RenderScene` only the first two
use the slot of their texture.  The third, the monitor screen, binds the handle 3 of
"monScreen", whose slot is 2, but on texture unit 1 and with the sampler index -1,
because `SetShaderTexture` is given "monscreen"; the following seven draws go wrong in
the same way, and `glActiveTexture(GL_TEXTURE)` of the last two selects no unit. -/
theorem C16_textured_draws_miss_their_slots :
    LoadSceneTextures (decodeAs (some 3)) (fun k => k + 1) (DefineObjectMaterials (registryOf []))
      = .ok loadedScene ∧
    (fun calls => (Pipeline.draws (Pipeline.fresh 16) calls).take 10)
        <$> RenderScene sampleOps loadedScene staleMaterial
      = .ok
        [⟨"Plane", some 1, some 0, 0, 1⟩,
         ⟨"Box", some 1, some 1, 1, 2⟩,
         ⟨"Box", some 1, some (-1), 1, 3⟩,
         ⟨"Box", some 1, some (-1), 1, 4⟩,
         ⟨"Cylinder", some 1, some (-1), 1, 5⟩,
         ⟨"Cylinder", some 1, some (-1), 1, 6⟩,
         ⟨"Sphere", some 1, some (-1), 1, 5⟩,
         ⟨"Cylinder", some 1, some (-1), 1, 6⟩,
         ⟨"Cylinder", some 1, some (-1), 1, 6⟩,
         ⟨"Torus", some 1, some (-1), 1, 7⟩] ∧
    FindTextureID loadedScene "monScreen" = .ok 3 ∧
    FindTextureSlot loadedScene "monScreen" = .ok 2 ∧
    FindTextureSlot loadedScene "monscreen" = .ok (-1) := by
  refine ⟨rfl, by decide, by decide, by decide, by decide⟩

/-- C17, the code at a failing input: "monscreen" is not registered in the loaded scene,
and `SetShaderTexture("monscreen")`, the call of `RenderScene` for the monitor screen,
sets `bUseTexture` to true and uploads the sentinel -1 as the `objectTexture` sampler
index. -/
theorem C17_unregistered_tag_stays_textured :
    WellFormed loadedScene ∧ (∀ e ∈ registry loadedScene, e.tag ≠ "monscreen") ∧
    SetShaderTexture loadedScene "monscreen" =
      .ok [("bUseTexture", UniformValue.int 1), ("objectTexture", UniformValue.sampler2D (-1))] := by
  decide

/-! ## Loading the scene textures -/

theorem CreateGLTexture_keeps_invariant {α : Type} (stbi_load : String → Option STBI_IMAGE)
    (glGenTextures : Nat) (s : SceneManager α) (filename tag : String)
    (orig : List TEXTURE_INFO) (k : Nat) (hk : k < MAX_TEXTURES)
    (hinv : LoadInvariant orig k s) :
    ∃ (b : Bool) (s1 : SceneManager α),
      CreateGLTexture stbi_load glGenTextures s filename tag = .ok (b, s1) ∧
      LoadInvariant orig (k + 1) s1 := by
  obtain ⟨hl, h0, hle, hrest⟩ := hinv
  have h1 : s.m_loadedTextures < (s.m_textureIDs.length : Int) := by
    rw [hl]; omega
  cases hload : stbi_load filename with
  | none =>
    exact ⟨false, s, by simp [CreateGLTexture, hload], hl, h0, by omega, hrest⟩
  | some image =>
    by_cases hch : image.colorChannels = 3 ∨ image.colorChannels = 4
    · refine ⟨true, _, CreateGLTexture_registers stbi_load glGenTextures s filename tag image
        hload hch h0 h1, ?_, ?_, ?_, ?_⟩
      · simpa using hl
      · simp only; omega
      · simp only; omega
      · intro j hj
        simp only at hj ⊢
        have hne : s.m_loadedTextures.toNat ≠ j := by omega
        rw [List.getElem?_set_ne hne]
        exact hrest j (by omega)
    · have h3 : image.colorChannels ≠ 3 := fun h => hch (Or.inl h)
      have h4 : image.colorChannels ≠ 4 := fun h => hch (Or.inr h)
      exact ⟨false, s, by simp [CreateGLTexture, hload, h3, h4], hl, h0, by omega, hrest⟩

/-- C18: starting from an empty texture registry in the array of 16 slots,
`LoadSceneTextures`, which makes seven `CreateGLTexture` calls, returns whatever the
image decoder and OpenGL answer: no write leaves the array.  Afterwards at most 7
textures are registered and the slots 7 to 15 are untouched, so every index written is
below 7 and with it below the 16 available slots. -/
theorem C18_scene_textures_fit {α : Type} (stbi_load : String → Option STBI_IMAGE)
    (glGenTextures : Nat → Nat) (s : SceneManager α) (hempty : s.m_loadedTextures = 0)
    (hslots : s.m_textureIDs.length = MAX_TEXTURES) :
    ∃ s1 : SceneManager α,
      LoadSceneTextures stbi_load glGenTextures s = .ok s1 ∧
      0 ≤ s1.m_loadedTextures ∧ s1.m_loadedTextures ≤ 7 ∧
      s1.m_textureIDs.length = MAX_TEXTURES ∧
      (∀ j : Nat, 7 ≤ j → s1.m_textureIDs[j]? = s.m_textureIDs[j]?) ∧
      s1.m_loadedTextures < (MAX_TEXTURES : Int) := by
  have hI0 : LoadInvariant s.m_textureIDs 0 s :=
    ⟨hslots, by omega, by omega, fun _ _ => rfl⟩
  obtain ⟨b1, s1, e1, hI1⟩ := CreateGLTexture_keeps_invariant stbi_load (glGenTextures 0) s
    "../../Utilities/textures/knife_handle.jpg" "woodTexture" s.m_textureIDs 0 (by decide) hI0
  obtain ⟨b2, s2, e2, hI2⟩ := CreateGLTexture_keeps_invariant stbi_load (glGenTextures 1) s1
    "../../Utilities/textures/book.jpg" "backDrop" s.m_textureIDs 1 (by decide) hI1
  obtain ⟨b3, s3, e3, hI3⟩ := CreateGLTexture_keeps_invariant stbi_load (glGenTextures 2) s2
    "../../Utilities/textures/monitorscreen.jpg" "monScreen" s.m_textureIDs 2 (by decide) hI2
  obtain ⟨b4, s4, e4, hI4⟩ := CreateGLTexture_keeps_invariant stbi_load (glGenTextures 3) s3
    "../../Utilities/textures/pckeyboard.jpg" "pcKey" s.m_textureIDs 3 (by decide) hI3
  obtain ⟨b5, s5, e5, hI5⟩ := CreateGLTexture_keeps_invariant stbi_load (glGenTextures 4) s4
    "../../Utilities/textures/stainless_end.jpg" "penCup" s.m_textureIDs 4 (by decide) hI4
  obtain ⟨b6, s6, e6, hI6⟩ := CreateGLTexture_keeps_invariant stbi_load (glGenTextures 5) s5
    "../../Utilities/textures/circular-brushed-gold-texture.jpg" "lampGold" s.m_textureIDs 5
    (by decide) hI5
  obtain ⟨b7, s7, e7, hI7⟩ := CreateGLTexture_keeps_invariant stbi_load (glGenTextures 6) s6
    "../../Utilities/textures/donut_tex.jpg" "donutTex" s.m_textureIDs 6 (by decide) hI6
  obtain ⟨hl, h0, hle, hrest⟩ := hI7
  refine ⟨s7, ?_, h0, by omega, hl, fun j hj => hrest j (by omega), ?_⟩
  · simp [LoadSceneTextures, bind, Except.bind, e1, e2, e3, e4, e5, e6, e7, pure, Except.pure]
  · unfold MAX_TEXTURES; omega

/-- C18 at a concrete input: the empty registry, with every image decoding as RGBA and
the texture names 1 to 7. -/
theorem C18_scene_textures_fit_witness :
    ∃ s1 : SceneManager ℚ,
      LoadSceneTextures (decodeAs (some 4)) (fun k => k + 1) (registryOf []) = .ok s1 ∧
      0 ≤ s1.m_loadedTextures ∧ s1.m_loadedTextures ≤ 7 ∧
      s1.m_textureIDs.length = MAX_TEXTURES ∧
      (∀ j : Nat, 7 ≤ j → s1.m_textureIDs[j]? = (registryOf []).m_textureIDs[j]?) ∧
      s1.m_loadedTextures < (MAX_TEXTURES : Int) :=
  C18_scene_textures_fit (decodeAs (some 4)) (fun k => k + 1) (registryOf []) rfl rfl

end CS330
